import Mathlib

/-!
Shallow embedding of the G1 robot telemetry client
(`packages/web/src/cesium/vehicles/g1/G1Robot.ts` together with the
`Vehicle` base class it extends).

JavaScript numbers are idealised as exact rationals.  A value that may be
non-finite (`NaN` / `±Infinity`) is represented by the type `JNum`
(`Option ℚ`, with `none` standing for any non-finite value); this matches
the way the source only ever distinguishes finite from non-finite numbers
via `Number.isFinite`.  Transcendental library calls (`Math.cos`,
`Math.atan2`, `Math.hypot`, `Cesium.Cartesian3.distance`,
`Cesium.HeadingPitchRoll.fromQuaternion`, `Math.SQRT1_2`) are supplied by
an oracle structure so that every theorem holds for all possible values of
those calls.  `Math.PI` is an explicit parameter `pi` of the environment.
-/

namespace G1

/-- A JavaScript number: `some q` is the finite value `q`; `none` stands for
any non-finite value (`NaN` or `±Infinity`), i.e. `Number.isFinite` fails. -/
abbrev JNum := Option ℚ

/-- JavaScript truncation toward zero, as used by the `%` operator. -/
def jsTrunc (x : ℚ) : ℤ := if 0 ≤ x then ⌊x⌋ else ⌈x⌉

/-- JavaScript remainder `m % n` for finite operands: it carries the sign of
the dividend, `m % n = m - n * trunc (m / n)`. -/
def jsRem (m n : ℚ) : ℚ := m - n * (jsTrunc (m / n) : ℚ)

/-- Embeds `Cesium.Math.mod(m, n) = ((m % n) + n) % n`. -/
def cesiumMod (m n : ℚ) : ℚ := jsRem (jsRem m n + n) n

/-- Embeds `Cesium.Math.zeroToTwoPi`: returns `angle` unchanged when it already lies
in `[0, 2π]`; otherwise reduces modulo `2π`, with the special case that a
nonzero exact multiple of `2π` is mapped to `2π` rather than `0` (the
source guards this case with `EPSILON14`, which exact rational arithmetic
idealises to an exact-zero test). -/
def zeroToTwoPi (pi angle : ℚ) : ℚ :=
  if 0 ≤ angle ∧ angle ≤ 2 * pi then angle
  else if cesiumMod angle (2 * pi) = 0 ∧ angle ≠ 0 then 2 * pi
  else cesiumMod angle (2 * pi)

/-- Embeds `G1Robot.normalizeSignedAngle`: the source repeatedly subtracts `2π`
while the value exceeds `π` and then repeatedly adds `2π` while it is below
`-π`.  For `0 < pi` the loops terminate and compute exactly this closed
form (the ceiling counts the loop iterations). -/
def normalizeSignedAngle (pi rad : ℚ) : ℚ :=
  if pi < rad then rad - 2 * pi * (⌈(rad - pi) / (2 * pi)⌉ : ℚ)
  else if rad < -pi then rad + 2 * pi * (⌈(-pi - rad) / (2 * pi)⌉ : ℚ)
  else rad

/-- Embeds `Cesium.Math.toRadians`. -/
def toRadians (pi degrees : ℚ) : ℚ := degrees * (pi / 180)

/-- Embeds `Cesium.Math.clamp(value, min, max) = Math.min(Math.max(value, min), max)`. -/
def clampQ (value lo hi : ℚ) : ℚ := min (max value lo) hi

/-- Embeds `G1Robot.lerpAngle`: normalises both angles into `[0, 2π]`, wraps the
difference into the shortest signed arc, and advances the start angle by
`factor` times that arc.  (`stop` stands for the source parameter `end`,
which is a reserved word in Lean.) -/
def lerpAngle (pi start stop factor : ℚ) : ℚ :=
  let normalizedStart := zeroToTwoPi pi start
  let normalizedEnd := zeroToTwoPi pi stop
  let delta0 := normalizedEnd - normalizedStart
  let delta :=
    if pi < delta0 then delta0 - 2 * pi
    else if delta0 < -pi then delta0 + 2 * pi
    else delta0
  zeroToTwoPi pi (normalizedStart + delta * factor)

/-- The signed wrapped arc chosen by `lerpAngle` between the two normalised
angles. -/
def lerpDelta (pi start stop : ℚ) : ℚ :=
  let delta0 := zeroToTwoPi pi stop - zeroToTwoPi pi start
  if pi < delta0 then delta0 - 2 * pi
  else if delta0 < -pi then delta0 + 2 * pi
  else delta0

/-! ## Data model (G1Robot.ts interfaces) -/

/-- The `quat: [w, x, y, z]` array of a `G1RootPose` (entries may be
non-finite). `none` at the outer level models a missing or non-array
`quat` field, which fails the source's `Array.isArray`/length-4 check. -/
structure QuatRaw where
  w : JNum
  x : JNum
  y : JNum
  z : JNum

/-- Embeds `Partial<G1RootPose>`: each field may be absent or non-finite. -/
structure RootPose where
  lat : JNum
  lon : JNum
  height : JNum
  quat : Option QuatRaw

/-- Embeds `Partial<G1LinkPose>`: `pos` and `quat` arrays (modelled as tuples; a
missing/malformed array is `none`, matching the `Array.isArray`/length
checks in `applyLinkAnimation`). -/
structure LinkPose where
  pos : Option (JNum × JNum × JNum)
  quat : Option (JNum × JNum × JNum × JNum)

/-- The `currentWaypoint` field of an inbound `nav` object: an array of two
entries, an explicit `null`, or anything else (absent / malformed). -/
inductive WaypointRaw where
  | pair (lat lon : JNum)
  | nullW
  | absent

/-- Inbound `nav` object as consumed by `emitNavigationContext`.  Numeric
fields are stored after the source's `Number(...)` coercion, so `none`
covers both an absent field and a non-finite value.  `simTimeS` keeps one
extra level because `applyPose` reads it through the nullish-coalescing
`payload.nav?.simTimeS ?? payload.simTimeS` before coercion. -/
structure NavRaw where
  currentWaypoint : WaypointRaw
  remainingWaypoints : JNum
  running : Option Bool
  simTimeS : Option JNum
  wallTimeS : JNum
  speedRequested : JNum
  speedAchieved : JNum
  crossTrackErrorM : JNum
  progressPct : JNum
  offRoute : Option Bool
  terrainBlockReason : Option String
  obstacleBlockReason : Option String

/-- Embeds `G1PosePayload` (the fields the pipeline reads). -/
structure PosePayload where
  t : JNum
  simTimeS : JNum
  root : Option RootPose
  links : Option (List (String × LinkPose))
  nav : Option NavRaw

/-- The sanitized `currentWaypoint` surfaced to the navigation callback. -/
inductive WaypointOut where
  | undef
  | nullW
  | pair (lat lon : ℚ)

/-- The sanitized navigation context handed to `onNavigationContext`
(`undefined` fields are `none`). -/
structure NavOut where
  currentWaypoint : WaypointOut
  remainingWaypoints : Option ℤ
  running : Option Bool
  simTimeS : Option ℚ
  wallTimeS : Option ℚ
  speedRequested : Option ℚ
  speedAchieved : Option ℚ
  crossTrackErrorM : Option ℚ
  progressPct : Option ℚ
  offRoute : Option Bool
  terrainBlockReason : Option String
  obstacleBlockReason : Option String

/-- A render position `Cesium.Cartesian3.fromDegrees(lon, lat, alt)`,
identified by its geographic arguments. -/
structure PosDeg where
  lon : ℚ
  lat : ℚ
  alt : ℚ
deriving DecidableEq

/-- A node-local transform written by `applyLinkAnimation`
(`Matrix4.fromRotationTranslation` of the remapped quaternion and the
scaled remapped translation, identified by those arguments). -/
structure NodeMatrix where
  quatWxyz : ℚ × ℚ × ℚ × ℚ
  translation : ℚ × ℚ × ℚ

/-- Embeds `G1RuntimeMetrics`. -/
structure Metrics where
  poseApplyHz : ℚ
  terrainQueryHz : ℚ
  terrainProbeHz : ℚ
  wsInHz : ℚ
  wsOutHz : ℚ
  avgCaptureMs : ℚ

/-- Status-callback invocations made by the embedded code paths (the
formatted message strings are abstracted to their data). -/
inductive StatusEvt where
  | headingLockComplete (offsetRad : ℚ)
  | headingAutoCalibrated (offsetRad : ℚ)
  | perfStatus (m : Metrics)

/-- One entry of a `dynamic_obstacles` candidate list
(`sendDynamicObstacles` argument), with numbers after `Number(...)`. -/
structure ObstacleIn where
  id : String
  lat : JNum
  lon : JNum
  radiusM : JNum
  kind : String
  speedMps : JNum

/-- Outbound websocket messages produced by the embedded paths. -/
inductive OutMsg where
  | dynamicObstacles (seq : ℕ) (capturedAtMs : ℚ) (obstacles : List ObstacleIn)

/-- Results of the transcendental / geometric library calls the client
makes; every theorem below holds for all oracles. -/
structure JsOracle where
  cos : ℚ → ℚ
  atan2 : ℚ → ℚ → ℚ
  hypot : ℚ → ℚ → ℚ
  dist : PosDeg → PosDeg → ℚ
  hprHeadingFromQuat : ℚ → ℚ → ℚ → ℚ → JNum
  hprPitchFromQuat : ℚ → ℚ → ℚ → ℚ → ℚ
  hprRollFromQuat : ℚ → ℚ → ℚ → ℚ → ℚ
  sqrt12 : ℚ

/-- Ambient configuration of a `G1Robot` instance: `Math.PI`, the scene /
primitive handles, and the node-map file contents. -/
structure Env where
  pi : ℚ
  hasScene : Bool
  hasPrimitive : Bool
  modelReady : Bool
  hasGetNode : Bool
  enableLinkAnimation : Bool
  nodeMap : String → Option String
  ignoredNodes : String → Bool
  hasNode : String → Bool
  linkScale : ℚ
  hasNavCallback : Bool
  oracle : JsOracle

/-- The mutable instance state of `G1Robot` (and its `Vehicle` base class)
touched by the pose-ingestion pipeline, plus logs of its observable
effects (status callbacks, persisted offsets, navigation emissions,
outbound websocket messages). -/
structure RobotState where
  latestPayload : Option PosePayload
  lastProcessedT : JNum
  lastPosePosition : Option PosDeg
  lastPoseTimeMs : Option ℚ
  lastGeoLat : Option ℚ
  lastGeoLon : Option ℚ
  smoothedHeadingRad : JNum
  terrainHeightM : ℚ
  terrainHeightValid : Bool
  currentLat : Option ℚ
  currentLon : Option ℚ
  lastStaticPoseRefreshMs : ℚ
  lastPoseApplyMs : ℚ
  lastTerrainSampleMs : ℚ
  position : PosDeg
  hprHeading : ℚ
  hprPitch : ℚ
  hprRoll : ℚ
  modelMatrix : Option (PosDeg × ℚ × ℚ × ℚ)
  modelHeadingOffset : ℚ
  headingCalibrationSamples : ℕ
  headingFastLockComplete : Bool
  headingAlignedStreak : ℕ
  velocity : ℚ
  speed : ℚ
  nodeMatrices : List (String × NodeMatrix)
  navEmissions : List NavOut
  statusEvents : List StatusEvt
  persistLog : List ℚ
  perfPoseApplied : ℕ
  perfWindowStartedMs : ℚ
  perfTerrainQueries : ℕ
  perfTerrainProbes : ℕ
  perfFramesCaptured : ℕ
  perfFrameCaptureMsTotal : ℚ
  perfWsIn : ℕ
  perfWsOut : ℕ
  lastMetrics : Metrics
  dynamicObstacleSeq : ℕ
  wsReady : Bool
  sentMessages : List OutMsg

/-- External inputs consumed during one `update` tick: the successive
`performance.now()` readings, `Date.now()`, and the two terrain query
results (`globe.getHeight`, `scene.clampToHeight`; for the latter `none`
is a missing hit and `some h` a hit whose cartographic height is `h`). -/
structure TickInput where
  nowMs : ℚ
  applyNowMs : ℚ
  terrainNowMs : ℚ
  perfNowMs : ℚ
  wallMs : ℚ
  globeHeight : JNum
  clampResult : Option JNum

/-! ## Embedded operations (G1Robot.ts methods) -/

/-- Embeds `G1Robot.sanitizeQuat`: a missing / non-array / wrong-length / non-finite
quaternion is replaced by the identity `[1, 0, 0, 0]`. -/
def sanitizeQuat (raw : Option QuatRaw) : ℚ × ℚ × ℚ × ℚ :=
  match raw with
  | none => (1, 0, 0, 0)
  | some q =>
    match q.w, q.x, q.y, q.z with
    | some w, some x, some y, some z => (w, x, y, z)
    | _, _, _, _ => (1, 0, 0, 0)

/-- Embeds `G1Robot.estimateMotionHeading`: equirectangular bearing from the stored
previous fix to the current one; `none` below the `5e-9` noise floor or
when no previous fix exists.  Returns the heading together with the state
whose `lastGeo` fields have been advanced. -/
def estimateMotionHeading (env : Env) (s : RobotState) (lat lon : ℚ) :
    Option ℚ × RobotState :=
  let prevLat := s.lastGeoLat
  let prevLon := s.lastGeoLon
  let s' := { s with lastGeoLat := some lat, lastGeoLon := some lon }
  match prevLat, prevLon with
  | some pLat, some pLon =>
    let toRad := env.pi / 180
    let dLat := (lat - pLat) * toRad
    let dLon := (lon - pLon) * toRad
    let meanLat := ((lat + pLat) * 0.5) * toRad
    let east := dLon * env.oracle.cos meanLat
    let north := dLat
    let movement := env.oracle.hypot east north
    if movement < 5e-9 then (none, s') else (some (env.oracle.atan2 east north), s')
  | _, _ => (none, s')

/-- The value the two terrain queries of `G1Robot.sampleTerrainHeight`
resolve to: the globe height, overridden by the `clampToHeight` surface
height unless the latter is more than 2 units below it. -/
def resolveSampledHeight (globeHeight : JNum) (clampResult : Option JNum) : JNum :=
  match clampResult with
  | none => globeHeight
  | some clampedHeight =>
    match globeHeight with
    | none => clampedHeight
    | some g =>
      match clampedHeight with
      | some c => if -2.0 ≤ c - g then some c else some g
      | none => some g

/-- Embeds `G1Robot.sampleTerrainHeight`: throttled, plausibility-bounded, blended
terrain height cache.  Returns the height used for this frame together
with the updated state. -/
def sampleTerrainHeight (env : Env) (inp : TickInput) (s : RobotState)
    (_lat _lon : ℚ) : ℚ × RobotState :=
  if ¬ env.hasScene then (0, s)
  else if inp.terrainNowMs - s.lastTerrainSampleMs < 300 ∧ s.terrainHeightValid then
    (s.terrainHeightM, s)
  else
    let s0 := { s with lastTerrainSampleMs := inp.terrainNowMs,
                       perfTerrainQueries := s.perfTerrainQueries + 2 }
    match resolveSampledHeight inp.globeHeight inp.clampResult with
    | none => (if s.terrainHeightValid then s.terrainHeightM else 0, s0)
    | some sampledHeight =>
      if 3000 < |sampledHeight| then
        (if s.terrainHeightValid then s.terrainHeightM else 0, s0)
      else if ¬ s.terrainHeightValid then
        (sampledHeight, { s0 with terrainHeightM := sampledHeight, terrainHeightValid := true })
      else
        let delta := sampledHeight - s.terrainHeightM
        let newHeight :=
          if 12.0 < |delta| then sampledHeight
          else if 2.0 < |delta| then s.terrainHeightM + delta * 0.75
          else s.terrainHeightM + delta * 0.5
        (newHeight, { s0 with terrainHeightM := newHeight })

/-- Embeds `G1Robot.maybeAutoCalibrateHeading`: two-phase online learning of the
model-heading offset (the computed error is always finite in exact
rational arithmetic, so the source's `Number.isFinite(error)` guard is
always satisfied here). -/
def maybeAutoCalibrateHeading (env : Env) (s : RobotState) (moveHeading : Option ℚ) :
    RobotState :=
  match moveHeading with
  | none => s
  | some m =>
    if s.velocity < 0.12 then s
    else if 360 ≤ s.headingCalibrationSamples then s
    else
      let modelHeading := s.hprHeading + s.modelHeadingOffset
      let error := normalizeSignedAngle env.pi (m - modelHeading)
      if toRadians env.pi 70 < |error| then s
      else if ¬ s.headingFastLockComplete then
        let fastCorrection := clampQ error (-0.22) 0.22 * 0.35
        let offsetNext :=
          if 1e-4 < |fastCorrection| then
            normalizeSignedAngle env.pi (s.modelHeadingOffset + fastCorrection)
          else s.modelHeadingOffset
        let samplesNext := s.headingCalibrationSamples + 1
        let streakNext :=
          if |error| ≤ toRadians env.pi 15 then s.headingAlignedStreak + 1 else 0
        if 20 ≤ streakNext ∨ 90 ≤ samplesNext then
          { s with modelHeadingOffset := offsetNext,
                   headingCalibrationSamples := samplesNext,
                   headingAlignedStreak := streakNext,
                   headingFastLockComplete := true,
                   persistLog := s.persistLog ++ [offsetNext],
                   statusEvents := s.statusEvents ++
                     [StatusEvt.headingLockComplete offsetNext] }
        else
          { s with modelHeadingOffset := offsetNext,
                   headingCalibrationSamples := samplesNext,
                   headingAlignedStreak := streakNext }
      else
        let correction := clampQ error (-0.04) 0.04 * 0.06
        if |correction| < 1e-4 then s
        else
          let offsetNext := normalizeSignedAngle env.pi (s.modelHeadingOffset + correction)
          let samplesNext := s.headingCalibrationSamples + 1
          if samplesNext % 45 = 0 then
            { s with modelHeadingOffset := offsetNext,
                     headingCalibrationSamples := samplesNext,
                     persistLog := s.persistLog ++ [offsetNext],
                     statusEvents := s.statusEvents ++
                       [StatusEvt.headingAutoCalibrated offsetNext] }
          else
            { s with modelHeadingOffset := offsetNext,
                     headingCalibrationSamples := samplesNext }

/-- Embeds `Vehicle.updateModelMatrix`: recomposes the primitive's model matrix from
position and `heading + modelHeadingOffset`, pitch, roll. -/
def updateModelMatrix (env : Env) (s : RobotState) : RobotState :=
  if env.hasPrimitive then
    { s with modelMatrix := some (s.position, s.hprHeading + s.modelHeadingOffset, s.hprPitch, s.hprRoll) }
  else s

/-- Embeds `G1Robot.applyRootTransform`: extracts heading/pitch/roll from the
reported quaternion, blends toward the motion heading, smooths, runs the
calibration engine, then recomposes the model matrix. -/
def applyRootTransform (env : Env) (s : RobotState)
    (quatWxyz : ℚ × ℚ × ℚ × ℚ) (moveHeading : Option ℚ) : RobotState :=
  let qw := quatWxyz.1
  let qx := quatWxyz.2.1
  let qy := quatWxyz.2.2.1
  let qz := quatWxyz.2.2.2
  let rawHeading := env.oracle.hprHeadingFromQuat qw qx qy qz
  let pitch := env.oracle.hprPitchFromQuat qw qx qy qz
  let roll := env.oracle.hprRollFromQuat qw qx qy qz
  let heading0 : JNum :=
    match rawHeading with
    | some h => some h
    | none => s.smoothedHeadingRad
  let heading1 : JNum :=
    match moveHeading with
    | some m =>
      let targetBodyHeading := normalizeSignedAngle env.pi (m - s.modelHeadingOffset)
      match heading0 with
      | some h => some (lerpAngle env.pi h targetBodyHeading 0.72)
      | none => some targetBodyHeading
    | none => heading0
  let heading : ℚ := heading1.getD 0
  let smoothed :=
    match s.smoothedHeadingRad with
    | none => heading
    | some sm => lerpAngle env.pi sm heading (if moveHeading.isSome then 0.32 else 0.08)
  let s1 := { s with smoothedHeadingRad := some smoothed,
                     hprHeading := zeroToTwoPi env.pi smoothed,
                     hprPitch := pitch,
                     hprRoll := roll }
  let s2 := maybeAutoCalibrateHeading env s1 moveHeading
  if env.hasPrimitive then
    { s2 with modelMatrix := some (s2.position, s2.hprHeading + s2.modelHeadingOffset, s2.hprPitch, s2.hprRoll) }
  else s2

/-- Embeds `G1Robot.remapLinkPosition`: MuJoCo `(x, y, z)` to GLB `(x, z, -y)`. -/
def remapLinkPosition (x y z : ℚ) : ℚ × ℚ × ℚ := (x, z, -y)

/-- Embeds `G1Robot.remapLinkQuat`: conjugation by the fixed basis-change rotation,
written with the source's `Math.SQRT1_2` constant supplied as `s`. -/
def remapLinkQuat (s w x y z : ℚ) : ℚ × ℚ × ℚ × ℚ :=
  let aW := s
  let aX := -s
  let aY : ℚ := 0
  let aZ : ℚ := 0
  let aiW := s
  let aiX := s
  let aiY : ℚ := 0
  let aiZ : ℚ := 0
  let tW := aW * w - aX * x - aY * y - aZ * z
  let tX := aW * x + aX * w + aY * z - aZ * y
  let tY := aW * y - aX * z + aY * w + aZ * x
  let tZ := aW * z + aX * y - aY * x + aZ * w
  let outW := tW * aiW - tX * aiX - tY * aiY - tZ * aiZ
  let outX := tW * aiX + tX * aiW + tY * aiZ - tZ * aiY
  let outY := tW * aiY - tX * aiZ + tY * aiW + tZ * aiX
  let outZ := tW * aiZ + tX * aiY - tY * aiX + tZ * aiW
  (outW, outX, outY, outZ)

/-- Embeds `G1Robot.mapNodeName`: `null` for ignored nodes, otherwise
`this.nodeMap[sourceName] || sourceName` (an empty-string mapping also
falls back to the source name). -/
def mapNodeName (env : Env) (sourceName : String) : Option String :=
  if env.ignoredNodes sourceName then none
  else
    match env.nodeMap sourceName with
    | some target => if target = "" then some sourceName else some target
    | none => some sourceName

/-- One iteration of the `applyLinkAnimation` loop body. -/
def applyLinkStep (env : Env) (s : RobotState) (entry : String × LinkPose) : RobotState :=
  match mapNodeName env entry.1 with
  | none => s
  | some nodeName =>
    if ¬ env.hasNode nodeName then s
    else
      match entry.2.pos, entry.2.quat with
      | some (p0, p1, p2), some (q0, q1, q2, q3) =>
        match p0, p1, p2, q0, q1, q2, q3 with
        | some px, some py, some pz, some w, some x, some y, some z =>
          let adj := remapLinkPosition px py pz
          let adjX := adj.1
          let adjY := adj.2.1
          let adjZ := adj.2.2
          if 2.5 < |adjX| ∨ 2.5 < |adjY| ∨ 2.5 < |adjZ| then s
          else
            let remappedQuat := remapLinkQuat env.oracle.sqrt12 w x y z
            { s with nodeMatrices := s.nodeMatrices ++
                [(nodeName, ⟨remappedQuat,
                  (adjX * env.linkScale, adjY * env.linkScale, adjZ * env.linkScale)⟩)] }
        | _, _, _, _, _, _, _ => s
      | _, _ => s

/-- Embeds `G1Robot.applyLinkAnimation`: per-joint retargeting of the reported link
poses onto the rendered skeleton's nodes. -/
def applyLinkAnimation (env : Env) (s : RobotState)
    (links : Option (List (String × LinkPose))) : RobotState :=
  if ¬ env.enableLinkAnimation then s
  else
    match links with
    | none => s
    | some entries =>
      if ¬ env.hasPrimitive ∨ ¬ env.modelReady then s
      else if ¬ env.hasGetNode then s
      else entries.foldl (applyLinkStep env) s

/-- The sanitized navigation context built by `emitNavigationContext`. -/
def sanitizeNav (nv : NavRaw) : NavOut :=
  { currentWaypoint :=
      match nv.currentWaypoint with
      | .pair la lo =>
        match la, lo with
        | some a, some b => .pair a b
        | _, _ => .nullW
      | .nullW => .nullW
      | .absent => .undef
    remainingWaypoints := nv.remainingWaypoints.map fun q => max 0 ⌊q⌋
    running := nv.running
    simTimeS := match nv.simTimeS with | some (some q) => some q | _ => none
    wallTimeS := nv.wallTimeS
    speedRequested := nv.speedRequested
    speedAchieved := nv.speedAchieved
    crossTrackErrorM := nv.crossTrackErrorM
    progressPct := nv.progressPct
    offRoute := nv.offRoute
    terrainBlockReason := nv.terrainBlockReason
    obstacleBlockReason := nv.obstacleBlockReason }

/-- Embeds `G1Robot.emitNavigationContext`: surfaces the sanitized navigation
context through the configured callback (recorded in `navEmissions`). -/
def emitNavigationContext (env : Env) (s : RobotState) (rawNav : Option NavRaw) :
    RobotState :=
  if ¬ env.hasNavCallback then s
  else
    match rawNav with
    | none => s
    | some nv => { s with navEmissions := s.navEmissions ++ [sanitizeNav nv] }

/-- Embeds `G1Robot.updateSpeedEstimate`: speed from the distance between the
current and previous render positions over the (clamped) elapsed time. -/
def updateSpeedEstimate (env : Env) (inp : TickInput) (s : RobotState)
    (simTimeS : JNum) : RobotState :=
  let nowMs :=
    match simTimeS with
    | some st => st * 1000
    | none => inp.wallMs
  match s.lastPosePosition, s.lastPoseTimeMs with
  | some lastPos, some lastT =>
    let dt := max 0.03 ((nowMs - lastT) / 1000)
    let distance := env.oracle.dist s.position lastPos
    let speedMps := max 0 (distance / dt)
    { s with velocity := speedMps, speed := speedMps * 3.6,
             lastPosePosition := some s.position, lastPoseTimeMs := some nowMs }
  | _, _ =>
    { s with lastPosePosition := some s.position, lastPoseTimeMs := some nowMs,
             velocity := 0, speed := 0 }

/-- Embeds `G1Robot.applyPose`: the per-frame spatial pose composition pipeline. -/
def applyPose (env : Env) (inp : TickInput) (s : RobotState) (payload : PosePayload) :
    RobotState :=
  match payload.root with
  | none => s
  | some root =>
    let s0 := emitNavigationContext env s payload.nav
    match root.lat, root.lon with
    | some lat, some lon =>
      let nowMs := inp.applyNowMs
      let stationarySkip : Bool :=
        match s0.currentLat, s0.currentLon with
        | some cLat, some cLon =>
          decide (|lat - cLat| < 1e-9) && decide (|lon - cLon| < 1e-9) &&
            decide (nowMs - s0.lastStaticPoseRefreshMs < 220)
        | _, _ => false
      if stationarySkip then s0
      else
        let s1 := { s0 with lastStaticPoseRefreshMs := nowMs,
                            currentLat := some lat, currentLon := some lon }
        let terrainSample := sampleTerrainHeight env inp s1 lat lon
        let terrainHeight := terrainSample.1
        let s2 := terrainSample.2
        let altitude := terrainHeight + 0.86
        let s3 := { s2 with position := ⟨lon, lat, altitude⟩ }
        let motion := estimateMotionHeading env s3 lat lon
        let moveHeading := motion.1
        let s4 := motion.2
        let quat := sanitizeQuat root.quat
        let s5 := applyRootTransform env s4 quat moveHeading
        let s6 := applyLinkAnimation env s5 payload.links
        let simTimeCandidate : JNum :=
          match payload.nav with
          | some nv =>
            match nv.simTimeS with
            | some jn => jn
            | none => payload.simTimeS
          | none => payload.simTimeS
        updateSpeedEstimate env inp s6
          (match simTimeCandidate with
           | some q => some q
           | none => payload.t)
    | _, _ => s0

/-- Embeds `G1Robot.maybeEmitPerfStatus`: once the 5-second measurement window has
elapsed, publishes the rolling metrics and resets the counters. -/
def maybeEmitPerfStatus (_env : Env) (inp : TickInput) (s : RobotState) : RobotState :=
  let elapsedS := (inp.perfNowMs - s.perfWindowStartedMs) / 1000
  if elapsedS < 5.0 then s
  else
    let avgCaptureMs :=
      if 0 < s.perfFramesCaptured then s.perfFrameCaptureMsTotal / s.perfFramesCaptured
      else 0
    let m : Metrics :=
      { poseApplyHz := s.perfPoseApplied / elapsedS
        terrainQueryHz := s.perfTerrainQueries / elapsedS
        terrainProbeHz := s.perfTerrainProbes / elapsedS
        wsInHz := s.perfWsIn / elapsedS
        wsOutHz := s.perfWsOut / elapsedS
        avgCaptureMs := avgCaptureMs }
    { s with lastMetrics := m,
             statusEvents := s.statusEvents ++ [StatusEvt.perfStatus m],
             perfWindowStartedMs := inp.perfNowMs,
             perfPoseApplied := 0, perfTerrainQueries := 0, perfTerrainProbes := 0,
             perfFramesCaptured := 0, perfFrameCaptureMsTotal := 0,
             perfWsIn := 0, perfWsOut := 0 }

/-- Embeds `stamp === this.lastProcessedT`, guarded by `Number.isFinite(stamp)`
(a non-finite stamp never compares equal). -/
def isDupStamp : JNum → JNum → Bool
  | some q, some q' => q == q'
  | _, _ => false

/-- Embeds `G1Robot.update`: the per-rendering-tick pose-ingestion pipeline. -/
def update (env : Env) (inp : TickInput) (s : RobotState) : RobotState :=
  match s.latestPayload with
  | none => s
  | some payload =>
    match payload.root with
    | none => s
    | some _ =>
      if isDupStamp payload.t s.lastProcessedT then s
      else
        let s0 := { s with lastProcessedT :=
          match payload.t with
          | some q => some q
          | none => some inp.wallMs }
        if inp.nowMs - s0.lastPoseApplyMs < 33 then s0
        else
          let s1 := { s0 with lastPoseApplyMs := inp.nowMs,
                              perfPoseApplied := s0.perfPoseApplied + 1 }
          maybeEmitPerfStatus env inp (applyPose env inp s1 payload)

/-- Embeds `G1Robot.setModelHeadingOffsetRad`: manual calibration override.  A
non-finite argument is ignored; otherwise the offset is normalized,
persisted, and automatic calibration is marked complete and exhausted. -/
def setModelHeadingOffsetRad (env : Env) (s : RobotState) (offsetRad : JNum) :
    ℚ × RobotState :=
  match offsetRad with
  | none => (s.modelHeadingOffset, s)
  | some next =>
    let off := normalizeSignedAngle env.pi next
    let s1 := { s with modelHeadingOffset := off,
                       persistLog := s.persistLog ++ [off],
                       headingCalibrationSamples := 360,
                       headingFastLockComplete := true,
                       headingAlignedStreak := 0 }
    (off, updateModelMatrix env s1)

/-- The `map` stage of `sendDynamicObstacles`: `String(item.id || '')`
keeps a non-empty id, `String(item.kind || 'vehicle')` defaults the kind,
and the numeric coercions are identities on already-numeric fields. -/
def cleanObstacle (item : ObstacleIn) : ObstacleIn :=
  { item with id := if item.id = "" then "" else item.id,
              kind := if item.kind = "" then "vehicle" else item.kind }

/-- The `filter` stage of `sendDynamicObstacles`: non-empty id, finite
latitude/longitude/radius, strictly positive radius. -/
def validObstacle (item : ObstacleIn) : Bool :=
  decide (item.id ≠ "") && item.lat.isSome && item.lon.isSome &&
    match item.radiusM with
    | some r => decide (0 < r)
    | none => false

/-- Embeds `G1Robot.sendDynamicObstacles`: validates the candidate list and sends a
`dynamic_obstacles` message containing exactly the surviving entries. -/
def sendDynamicObstacles (s : RobotState) (wallMs : ℚ) (obstacles : List ObstacleIn) :
    RobotState :=
  if ¬ s.wsReady then s
  else if obstacles.length = 0 then s
  else
    let cleaned := (obstacles.map cleanObstacle).filter validObstacle
    if cleaned.length = 0 then s
    else
      let seq := s.dynamicObstacleSeq + 1
      { s with dynamicObstacleSeq := seq,
               perfWsOut := s.perfWsOut + 1,
               sentMessages := s.sentMessages ++
                 [OutMsg.dynamicObstacles seq wallMs cleaned] }

/-- Folding the per-tick `update` over a sequence of tick inputs. -/
def runTicks (env : Env) (inps : List TickInput) (s : RobotState) : RobotState :=
  inps.foldl (fun acc inp => update env inp acc) s

/-! ## Stream connection lifecycle

The `connectStream` / `destroy` handlers of `G1Robot`, modelled as a state
machine over the fields they touch.  `reconnectTimer` mirrors the instance
field (which may hold a stale id after its timeout fired), while
`pendingTimeout` models the event loop's actual pending `setTimeout`
(together with its delay in milliseconds); `clearTimeout` removes the
latter, and only a still-pending timeout can fire. -/

/-- Stream states emitted through `onStreamStateChange`. -/
inductive StreamTag where
  | offline
  | connecting
  | live
deriving DecidableEq

/-- The connection-lifecycle fields of `G1Robot`, plus the scheduler's view
of the pending reconnect timeout and a log of emitted stream states and
websocket constructions. -/
structure ConnState where
  destroyed : Bool
  wsAlive : Bool
  reconnectTimer : Option ℕ
  pendingTimeout : Option (ℕ × ℚ)
  nextTimerId : ℕ
  frameTimerOn : Bool
  probeTimerOn : Bool
  pendingVisionCapture : Bool
  emissions : List StreamTag
  connectAttempts : ℕ

/-- Embeds `G1Robot.emitStreamState`. -/
def emitStreamState (c : ConnState) (t : StreamTag) : ConnState :=
  { c with emissions := c.emissions ++ [t] }

/-- Embeds `G1Robot.cancelPendingVisionCapture` (the capture listener and
camera restore are resource handles with no further lifecycle effect
here). -/
def cancelPendingVisionCapture (c : ConnState) : ConnState :=
  { c with pendingVisionCapture := false }

/-- Embeds `G1Robot.stopPerceptionStreaming`. -/
def stopPerceptionStreaming (c : ConnState) : ConnState :=
  let c1 := cancelPendingVisionCapture c
  { c1 with frameTimerOn := false, probeTimerOn := false }

/-- Embeds `G1Robot.startPerceptionStreaming`. -/
def startPerceptionStreaming (c : ConnState) : ConnState :=
  let c1 := stopPerceptionStreaming c
  { c1 with frameTimerOn := true, probeTimerOn := true }

/-- Embeds `window.clearTimeout(id)`: removes the pending timeout if it is
the one with this id. -/
def clearTimeoutId (c : ConnState) (id : ℕ) : ConnState :=
  match c.pendingTimeout with
  | some (pid, _) => if pid = id then { c with pendingTimeout := none } else c
  | none => c

/-- Embeds `G1Robot.connectStream`: bails out when destroyed, otherwise
stops perception, replaces the socket and emits `connecting`.  Each run is
counted as one reconnect/connect attempt. -/
def connectStream (c : ConnState) : ConnState :=
  if c.destroyed then c
  else
    let c1 := stopPerceptionStreaming c
    let c2 := { c1 with wsAlive := false }
    let c3 := emitStreamState c2 .connecting
    { c3 with wsAlive := true, connectAttempts := c3.connectAttempts + 1 }

/-- Embeds the `ws.onopen` handler. -/
def onOpen (c : ConnState) : ConnState :=
  startPerceptionStreaming (emitStreamState c .live)

/-- Embeds the `ws.onerror` handler. -/
def onError (c : ConnState) : ConnState :=
  stopPerceptionStreaming (emitStreamState c .offline)

/-- Embeds the `ws.onclose` handler: emits `offline`, stops perception, and
(unless destroyed) replaces any pending reconnect timeout with a fresh one
scheduled after the fixed 1500 ms delay. -/
def onClose (c : ConnState) : ConnState :=
  let c1 := stopPerceptionStreaming (emitStreamState c .offline)
  if c1.destroyed then c1
  else
    let c2 :=
      match c1.reconnectTimer with
      | some id => clearTimeoutId c1 id
      | none => c1
    { c2 with reconnectTimer := some c2.nextTimerId,
              pendingTimeout := some (c2.nextTimerId, 1500),
              nextTimerId := c2.nextTimerId + 1 }

/-- A scheduled reconnect timeout fires: only the still-pending timeout can
fire; firing consumes it and runs `connectStream`. -/
def fireReconnect (c : ConnState) (id : ℕ) : ConnState :=
  match c.pendingTimeout with
  | some (pid, _) =>
    if pid = id then connectStream { c with pendingTimeout := none } else c
  | none => c

/-- Embeds `G1Robot.destroy` (the stream-lifecycle part): cancels any
in-flight capture, stops perception, clears the pending reconnect timer,
closes the socket and emits `offline`. -/
def destroy (c : ConnState) : ConnState :=
  let c1 := { c with destroyed := true }
  let c2 := stopPerceptionStreaming (cancelPendingVisionCapture c1)
  let c3 :=
    match c2.reconnectTimer with
    | some id => { clearTimeoutId c2 id with reconnectTimer := none }
    | none => c2
  emitStreamState { c3 with wsAlive := false } .offline

/-- The events the connection state machine reacts to. -/
inductive ConnEvent where
  | opened
  | errored
  | closed
  | timerFired (id : ℕ)
  | destroyEvt

/-- Dispatch of one connection event. -/
def connStep (c : ConnState) : ConnEvent → ConnState
  | .opened => onOpen c
  | .errored => onError c
  | .closed => onClose c
  | .timerFired id => fireReconnect c id
  | .destroyEvt => destroy c

/-- Folding a sequence of connection events. -/
def runConn (c : ConnState) (es : List ConnEvent) : ConnState :=
  es.foldl connStep c

/-! ## Concrete instances for counterexamples and witnesses -/

/-- A concrete oracle used for closed evaluations (every general theorem
holds for all oracles; counterexamples only need one). -/
def trivOracle : JsOracle :=
  { cos := fun _ => 1, atan2 := fun _ _ => 0, hypot := fun _ _ => 0,
    dist := fun _ _ => 0, hprHeadingFromQuat := fun _ _ _ _ => some 0,
    hprPitchFromQuat := fun _ _ _ _ => 0, hprRollFromQuat := fun _ _ _ _ => 0,
    sqrt12 := 0 }

/-- A concrete minimal environment (no scene, no primitive, link animation
off, no navigation callback). -/
def cEnv : Env :=
  { pi := 3, hasScene := false, hasPrimitive := false, modelReady := false,
    hasGetNode := false, enableLinkAnimation := false, nodeMap := fun _ => none,
    ignoredNodes := fun _ => false, hasNode := fun _ => false, linkScale := 1,
    hasNavCallback := false, oracle := trivOracle }

/-- The all-zero metrics record (constructor value of `lastMetrics`). -/
def zeroMetrics : Metrics := ⟨0, 0, 0, 0, 0, 0⟩

/-- The instance state right after construction: `NaN`-initialised numbers
are `none`, counters zero, caches empty. -/
def initState : RobotState :=
  { latestPayload := none, lastProcessedT := none, lastPosePosition := none,
    lastPoseTimeMs := none, lastGeoLat := none, lastGeoLon := none,
    smoothedHeadingRad := none, terrainHeightM := 0, terrainHeightValid := false,
    currentLat := none, currentLon := none, lastStaticPoseRefreshMs := 0,
    lastPoseApplyMs := 0, lastTerrainSampleMs := 0, position := ⟨0, 0, 0⟩,
    hprHeading := 0, hprPitch := 0, hprRoll := 0, modelMatrix := none,
    modelHeadingOffset := 0, headingCalibrationSamples := 0,
    headingFastLockComplete := false, headingAlignedStreak := 0, velocity := 0,
    speed := 0, nodeMatrices := [], navEmissions := [], statusEvents := [],
    persistLog := [], perfPoseApplied := 0, perfWindowStartedMs := 0,
    perfTerrainQueries := 0, perfTerrainProbes := 0, perfFramesCaptured := 0,
    perfFrameCaptureMsTotal := 0, perfWsIn := 0, perfWsOut := 0,
    lastMetrics := zeroMetrics, dynamicObstacleSeq := 0, wsReady := false,
    sentMessages := [] }

/-- A root pose with finite coordinates and a missing quaternion. -/
def rootA : RootPose := { lat := some 10, lon := some 20, height := some 0, quat := none }

/-- A payload with finite timestamp 1 and root pose `rootA`. -/
def payloadA : PosePayload :=
  { t := some 1, simTimeS := none, root := some rootA, links := none, nav := none }

/-- A payload identical to `payloadA` but with a missing (non-finite)
timestamp. -/
def payloadNoT : PosePayload :=
  { t := none, simTimeS := none, root := some rootA, links := none, nav := none }

/-- A tick arriving 10 ms after the last pose apply (inside the 33 ms
minimum interval). -/
def tick1 : TickInput :=
  { nowMs := 110, applyNowMs := 110, terrainNowMs := 110, perfNowMs := 110,
    wallMs := 1000, globeHeight := none, clampResult := none }

/-- A later tick, well past the minimum apply interval. -/
def tick2 : TickInput :=
  { nowMs := 200, applyNowMs := 200, terrainNowMs := 200, perfNowMs := 200,
    wallMs := 1100, globeHeight := none, clampResult := none }

/-- State holding `payloadA` as latest, with the previous apply at 100 ms. -/
def c1State : RobotState :=
  { initState with latestPayload := some payloadA, lastPoseApplyMs := 100 }

/-- A root pose with a missing (non-finite) latitude. -/
def rootBadLat : RootPose := { lat := none, lon := some 20, height := some 0, quat := some ⟨some 1, some 0, some 0, some 0⟩ }

/-- A payload whose root pose carries a missing latitude. -/
def payloadBadLat : PosePayload :=
  { t := some 3, simTimeS := none, root := some rootBadLat, links := none, nav := none }

/-- The instantaneous calibration error: signed angular difference between
the motion heading and the model heading (reported heading plus current
offset), as computed inside `maybeAutoCalibrateHeading`. -/
def calError (env : Env) (s : RobotState) (m : ℚ) : ℚ :=
  normalizeSignedAngle env.pi (m - (s.hprHeading + s.modelHeadingOffset))

/-- Environment with a scene attached, for the C6 witness. -/
def c6Env : Env := { cEnv with hasScene := true }

/-- State with a valid terrain cache at height 0, for the C6 witness. -/
def c6State : RobotState := { initState with terrainHeightValid := true }

/-- Tick whose globe query returns height 4, for the C6 witness. -/
def c6Tick : TickInput := { tick2 with terrainNowMs := 500, globeHeight := some 4 }

theorem jsRem_of_nonneg (m n : ℚ) (hn : 0 < n) (hm : 0 ≤ m) :
    0 ≤ jsRem m n ∧ jsRem m n < n := by
  have hdiv : 0 ≤ m / n := div_nonneg hm hn.le
  have htr : jsTrunc (m / n) = ⌊m / n⌋ := by simp [jsTrunc, hdiv]
  have h1 : jsRem m n = n * Int.fract (m / n) := by
    rw [jsRem, htr, Int.fract]
    field_simp
  constructor
  · rw [h1]; exact mul_nonneg hn.le (Int.fract_nonneg _)
  · rw [h1]
    calc n * Int.fract (m / n) < n * 1 := by
          exact mul_lt_mul_of_pos_left (Int.fract_lt_one _) hn
      _ = n := mul_one n

theorem jsRem_of_neg (m n : ℚ) (hn : 0 < n) (hm : m < 0) :
    -n < jsRem m n ∧ jsRem m n ≤ 0 := by
  have hdiv : ¬ (0 ≤ m / n) := by
    simp only [not_le]
    exact div_neg_of_neg_of_pos hm hn
  have htr : jsTrunc (m / n) = ⌈m / n⌉ := by simp [jsTrunc, hdiv]
  have hceil0 : (m / n : ℚ) ≤ (⌈m / n⌉ : ℚ) := Int.le_ceil _
  have hceil1 : ((⌈m / n⌉ : ℤ) : ℚ) < m / n + 1 := Int.ceil_lt_add_one _
  constructor
  · rw [jsRem, htr]
    have : n * ((⌈m / n⌉ : ℤ) : ℚ) < n * (m / n + 1) :=
      mul_lt_mul_of_pos_left hceil1 hn
    have hmn : n * (m / n) = m := by field_simp
    nlinarith
  · rw [jsRem, htr]
    have : n * (m / n) ≤ n * ((⌈m / n⌉ : ℤ) : ℚ) :=
      mul_le_mul_of_nonneg_left hceil0 hn.le
    have hmn : n * (m / n) = m := by field_simp
    nlinarith

theorem jsRem_bounds (m n : ℚ) (hn : 0 < n) : -n < jsRem m n ∧ jsRem m n < n := by
  rcases le_or_lt 0 m with hm | hm
  · have h := jsRem_of_nonneg m n hn hm
    exact ⟨lt_of_lt_of_le (neg_neg_of_pos hn) h.1, h.2⟩
  · have h := jsRem_of_neg m n hn hm
    exact ⟨h.1, lt_of_le_of_lt h.2 hn⟩

theorem cesiumMod_bounds (m n : ℚ) (hn : 0 < n) :
    0 ≤ cesiumMod m n ∧ cesiumMod m n < n := by
  have h := jsRem_bounds m n hn
  have hpos : 0 ≤ jsRem m n + n := by linarith [h.1]
  exact jsRem_of_nonneg _ n hn hpos

theorem jsRem_sub_mul (m n : ℚ) : ∃ k : ℤ, jsRem m n = m - n * k :=
  ⟨jsTrunc (m / n), rfl⟩

theorem cesiumMod_sub_mul (m n : ℚ) : ∃ k : ℤ, cesiumMod m n = m - n * k := by
  obtain ⟨k1, h1⟩ := jsRem_sub_mul m n
  obtain ⟨k2, h2⟩ := jsRem_sub_mul (jsRem m n + n) n
  refine ⟨k1 + k2 - 1, ?_⟩
  rw [cesiumMod, h2, h1]
  push_cast
  ring

theorem zeroToTwoPi_mem (pi a : ℚ) (hpi : 0 < pi) :
    0 ≤ zeroToTwoPi pi a ∧ zeroToTwoPi pi a ≤ 2 * pi := by
  rw [zeroToTwoPi]
  split
  · next h => exact ⟨h.1, h.2⟩
  · have hb := cesiumMod_bounds a (2 * pi) (by linarith)
    split
    · constructor <;> linarith
    · exact ⟨hb.1, hb.2.le⟩

theorem zeroToTwoPi_congr (pi a : ℚ) : ∃ k : ℤ, zeroToTwoPi pi a = a + 2 * pi * k := by
  rw [zeroToTwoPi]
  split
  · exact ⟨0, by push_cast; ring⟩
  · obtain ⟨k, hk⟩ := cesiumMod_sub_mul a (2 * pi)
    split
    · next hz =>
      refine ⟨1 - k, ?_⟩
      have : a - 2 * pi * k = 0 := hz.1 ▸ hk ▸ rfl
      push_cast
      nlinarith [this]
    · exact ⟨-k, by rw [hk]; push_cast; ring⟩

theorem lerpDelta_bounded (pi start stop : ℚ) (hpi : 0 < pi) :
    |lerpDelta pi start stop| ≤ pi := by
  have hs := zeroToTwoPi_mem pi start hpi
  have he := zeroToTwoPi_mem pi stop hpi
  rw [lerpDelta, abs_le]
  split
  · next h => constructor <;> linarith
  · split
    · next h => constructor <;> linarith
    · next h1 h2 =>
      push_neg at h1 h2
      constructor <;> linarith

theorem lerpDelta_congr (pi start stop : ℚ) :
    ∃ k : ℤ, (stop - start) - lerpDelta pi start stop = 2 * pi * k := by
  obtain ⟨k1, h1⟩ := zeroToTwoPi_congr pi start
  obtain ⟨k2, h2⟩ := zeroToTwoPi_congr pi stop
  rw [lerpDelta]
  split
  · exact ⟨k1 - k2 + 1, by rw [h1, h2]; push_cast; ring⟩
  · split
    · exact ⟨k1 - k2 - 1, by rw [h1, h2]; push_cast; ring⟩
    · exact ⟨k1 - k2, by rw [h1, h2]; push_cast; ring⟩

theorem lerpAngle_eq_delta_form (pi start stop factor : ℚ) :
    lerpAngle pi start stop factor =
      zeroToTwoPi pi (zeroToTwoPi pi start + lerpDelta pi start stop * factor) := by
  rw [lerpAngle, lerpDelta]

/-- Blending 350° toward 10° with factor 1/2 lands on 2π (i.e. passes through
360°/0°, not backward through 180°); holds for every positive value of `pi`. -/
theorem lerpAngle_wrap_example (pi : ℚ) (hpi : 0 < pi) :
    lerpAngle pi (350 * (pi / 180)) (10 * (pi / 180)) (1 / 2) = 2 * pi := by
  have hs : zeroToTwoPi pi (350 * (pi / 180)) = 350 * (pi / 180) := by
    rw [zeroToTwoPi, if_pos]
    constructor <;> nlinarith
  have he : zeroToTwoPi pi (10 * (pi / 180)) = 10 * (pi / 180) := by
    rw [zeroToTwoPi, if_pos]
    constructor <;> nlinarith
  rw [lerpAngle]
  simp only [hs, he]
  have hd0 : 10 * (pi / 180) - 350 * (pi / 180) = -(17 / 9) * pi := by ring
  rw [hd0]
  rw [if_neg (by nlinarith), if_pos (by nlinarith)]
  have harg : 350 * (pi / 180) + (-(17 / 9) * pi + 2 * pi) * (1 / 2) = 2 * pi := by ring
  rw [harg, zeroToTwoPi, if_pos]
  constructor <;> linarith

/-! ## Field-preservation lemmas

Each pose-pipeline helper leaves the fields owned by `update` (the stored
payload, the processed stamp, the apply throttle and the pose counters)
untouched, and every helper except the calibration engine leaves the
calibration offset and sample count untouched. -/

theorem emitNavigationContext_latestPayload (env : Env) (s : RobotState) (nv : Option NavRaw) :
    (emitNavigationContext env s nv).latestPayload = s.latestPayload := by
  unfold emitNavigationContext
  try dsimp only
  (repeat' split) <;> rfl

theorem emitNavigationContext_lastProcessedT (env : Env) (s : RobotState) (nv : Option NavRaw) :
    (emitNavigationContext env s nv).lastProcessedT = s.lastProcessedT := by
  unfold emitNavigationContext
  try dsimp only
  (repeat' split) <;> rfl

theorem emitNavigationContext_lastPoseApplyMs (env : Env) (s : RobotState) (nv : Option NavRaw) :
    (emitNavigationContext env s nv).lastPoseApplyMs = s.lastPoseApplyMs := by
  unfold emitNavigationContext
  try dsimp only
  (repeat' split) <;> rfl

theorem emitNavigationContext_perfPoseApplied (env : Env) (s : RobotState) (nv : Option NavRaw) :
    (emitNavigationContext env s nv).perfPoseApplied = s.perfPoseApplied := by
  unfold emitNavigationContext
  try dsimp only
  (repeat' split) <;> rfl

theorem emitNavigationContext_perfWindowStartedMs (env : Env) (s : RobotState) (nv : Option NavRaw) :
    (emitNavigationContext env s nv).perfWindowStartedMs = s.perfWindowStartedMs := by
  unfold emitNavigationContext
  try dsimp only
  (repeat' split) <;> rfl

theorem emitNavigationContext_modelHeadingOffset (env : Env) (s : RobotState) (nv : Option NavRaw) :
    (emitNavigationContext env s nv).modelHeadingOffset = s.modelHeadingOffset := by
  unfold emitNavigationContext
  try dsimp only
  (repeat' split) <;> rfl

theorem emitNavigationContext_headingCalibrationSamples (env : Env) (s : RobotState) (nv : Option NavRaw) :
    (emitNavigationContext env s nv).headingCalibrationSamples = s.headingCalibrationSamples := by
  unfold emitNavigationContext
  try dsimp only
  (repeat' split) <;> rfl

theorem sampleTerrainHeight_latestPayload (env : Env) (inp : TickInput) (s : RobotState) (la lo : ℚ) :
    ((sampleTerrainHeight env inp s la lo).2).latestPayload = s.latestPayload := by
  unfold sampleTerrainHeight
  dsimp only
  (repeat' split) <;> rfl

theorem sampleTerrainHeight_lastProcessedT (env : Env) (inp : TickInput) (s : RobotState) (la lo : ℚ) :
    ((sampleTerrainHeight env inp s la lo).2).lastProcessedT = s.lastProcessedT := by
  unfold sampleTerrainHeight
  dsimp only
  (repeat' split) <;> rfl

theorem sampleTerrainHeight_lastPoseApplyMs (env : Env) (inp : TickInput) (s : RobotState) (la lo : ℚ) :
    ((sampleTerrainHeight env inp s la lo).2).lastPoseApplyMs = s.lastPoseApplyMs := by
  unfold sampleTerrainHeight
  dsimp only
  (repeat' split) <;> rfl

theorem sampleTerrainHeight_perfPoseApplied (env : Env) (inp : TickInput) (s : RobotState) (la lo : ℚ) :
    ((sampleTerrainHeight env inp s la lo).2).perfPoseApplied = s.perfPoseApplied := by
  unfold sampleTerrainHeight
  dsimp only
  (repeat' split) <;> rfl

theorem sampleTerrainHeight_perfWindowStartedMs (env : Env) (inp : TickInput) (s : RobotState) (la lo : ℚ) :
    ((sampleTerrainHeight env inp s la lo).2).perfWindowStartedMs = s.perfWindowStartedMs := by
  unfold sampleTerrainHeight
  dsimp only
  (repeat' split) <;> rfl

theorem sampleTerrainHeight_modelHeadingOffset (env : Env) (inp : TickInput) (s : RobotState) (la lo : ℚ) :
    ((sampleTerrainHeight env inp s la lo).2).modelHeadingOffset = s.modelHeadingOffset := by
  unfold sampleTerrainHeight
  dsimp only
  (repeat' split) <;> rfl

theorem sampleTerrainHeight_headingCalibrationSamples (env : Env) (inp : TickInput) (s : RobotState) (la lo : ℚ) :
    ((sampleTerrainHeight env inp s la lo).2).headingCalibrationSamples = s.headingCalibrationSamples := by
  unfold sampleTerrainHeight
  dsimp only
  (repeat' split) <;> rfl

theorem estimateMotionHeading_latestPayload (env : Env) (s : RobotState) (la lo : ℚ) :
    ((estimateMotionHeading env s la lo).2).latestPayload = s.latestPayload := by
  unfold estimateMotionHeading
  dsimp only
  (repeat' split) <;> rfl

theorem estimateMotionHeading_lastProcessedT (env : Env) (s : RobotState) (la lo : ℚ) :
    ((estimateMotionHeading env s la lo).2).lastProcessedT = s.lastProcessedT := by
  unfold estimateMotionHeading
  dsimp only
  (repeat' split) <;> rfl

theorem estimateMotionHeading_lastPoseApplyMs (env : Env) (s : RobotState) (la lo : ℚ) :
    ((estimateMotionHeading env s la lo).2).lastPoseApplyMs = s.lastPoseApplyMs := by
  unfold estimateMotionHeading
  dsimp only
  (repeat' split) <;> rfl

theorem estimateMotionHeading_perfPoseApplied (env : Env) (s : RobotState) (la lo : ℚ) :
    ((estimateMotionHeading env s la lo).2).perfPoseApplied = s.perfPoseApplied := by
  unfold estimateMotionHeading
  dsimp only
  (repeat' split) <;> rfl

theorem estimateMotionHeading_perfWindowStartedMs (env : Env) (s : RobotState) (la lo : ℚ) :
    ((estimateMotionHeading env s la lo).2).perfWindowStartedMs = s.perfWindowStartedMs := by
  unfold estimateMotionHeading
  dsimp only
  (repeat' split) <;> rfl

theorem estimateMotionHeading_modelHeadingOffset (env : Env) (s : RobotState) (la lo : ℚ) :
    ((estimateMotionHeading env s la lo).2).modelHeadingOffset = s.modelHeadingOffset := by
  unfold estimateMotionHeading
  dsimp only
  (repeat' split) <;> rfl

theorem estimateMotionHeading_headingCalibrationSamples (env : Env) (s : RobotState) (la lo : ℚ) :
    ((estimateMotionHeading env s la lo).2).headingCalibrationSamples = s.headingCalibrationSamples := by
  unfold estimateMotionHeading
  dsimp only
  (repeat' split) <;> rfl

theorem maybeAutoCalibrateHeading_latestPayload (env : Env) (s : RobotState) (mh : Option ℚ) :
    (maybeAutoCalibrateHeading env s mh).latestPayload = s.latestPayload := by
  unfold maybeAutoCalibrateHeading
  try dsimp only
  (repeat' split) <;> rfl

theorem maybeAutoCalibrateHeading_lastProcessedT (env : Env) (s : RobotState) (mh : Option ℚ) :
    (maybeAutoCalibrateHeading env s mh).lastProcessedT = s.lastProcessedT := by
  unfold maybeAutoCalibrateHeading
  try dsimp only
  (repeat' split) <;> rfl

theorem maybeAutoCalibrateHeading_lastPoseApplyMs (env : Env) (s : RobotState) (mh : Option ℚ) :
    (maybeAutoCalibrateHeading env s mh).lastPoseApplyMs = s.lastPoseApplyMs := by
  unfold maybeAutoCalibrateHeading
  try dsimp only
  (repeat' split) <;> rfl

theorem maybeAutoCalibrateHeading_perfPoseApplied (env : Env) (s : RobotState) (mh : Option ℚ) :
    (maybeAutoCalibrateHeading env s mh).perfPoseApplied = s.perfPoseApplied := by
  unfold maybeAutoCalibrateHeading
  try dsimp only
  (repeat' split) <;> rfl

theorem maybeAutoCalibrateHeading_perfWindowStartedMs (env : Env) (s : RobotState) (mh : Option ℚ) :
    (maybeAutoCalibrateHeading env s mh).perfWindowStartedMs = s.perfWindowStartedMs := by
  unfold maybeAutoCalibrateHeading
  try dsimp only
  (repeat' split) <;> rfl

theorem applyLinkStep_latestPayload (env : Env) (s : RobotState) (e : String × LinkPose) :
    (applyLinkStep env s e).latestPayload = s.latestPayload := by
  unfold applyLinkStep
  dsimp only
  (repeat' split) <;> rfl

theorem applyLinkStep_lastProcessedT (env : Env) (s : RobotState) (e : String × LinkPose) :
    (applyLinkStep env s e).lastProcessedT = s.lastProcessedT := by
  unfold applyLinkStep
  dsimp only
  (repeat' split) <;> rfl

theorem applyLinkStep_lastPoseApplyMs (env : Env) (s : RobotState) (e : String × LinkPose) :
    (applyLinkStep env s e).lastPoseApplyMs = s.lastPoseApplyMs := by
  unfold applyLinkStep
  dsimp only
  (repeat' split) <;> rfl

theorem applyLinkStep_perfPoseApplied (env : Env) (s : RobotState) (e : String × LinkPose) :
    (applyLinkStep env s e).perfPoseApplied = s.perfPoseApplied := by
  unfold applyLinkStep
  dsimp only
  (repeat' split) <;> rfl

theorem applyLinkStep_perfWindowStartedMs (env : Env) (s : RobotState) (e : String × LinkPose) :
    (applyLinkStep env s e).perfWindowStartedMs = s.perfWindowStartedMs := by
  unfold applyLinkStep
  dsimp only
  (repeat' split) <;> rfl

theorem applyLinkStep_modelHeadingOffset (env : Env) (s : RobotState) (e : String × LinkPose) :
    (applyLinkStep env s e).modelHeadingOffset = s.modelHeadingOffset := by
  unfold applyLinkStep
  dsimp only
  (repeat' split) <;> rfl

theorem applyLinkStep_headingCalibrationSamples (env : Env) (s : RobotState) (e : String × LinkPose) :
    (applyLinkStep env s e).headingCalibrationSamples = s.headingCalibrationSamples := by
  unfold applyLinkStep
  dsimp only
  (repeat' split) <;> rfl

theorem updateSpeedEstimate_latestPayload (env : Env) (inp : TickInput) (s : RobotState) (t : JNum) :
    (updateSpeedEstimate env inp s t).latestPayload = s.latestPayload := by
  unfold updateSpeedEstimate
  dsimp only
  (repeat' split) <;> rfl

theorem updateSpeedEstimate_lastProcessedT (env : Env) (inp : TickInput) (s : RobotState) (t : JNum) :
    (updateSpeedEstimate env inp s t).lastProcessedT = s.lastProcessedT := by
  unfold updateSpeedEstimate
  dsimp only
  (repeat' split) <;> rfl

theorem updateSpeedEstimate_lastPoseApplyMs (env : Env) (inp : TickInput) (s : RobotState) (t : JNum) :
    (updateSpeedEstimate env inp s t).lastPoseApplyMs = s.lastPoseApplyMs := by
  unfold updateSpeedEstimate
  dsimp only
  (repeat' split) <;> rfl

theorem updateSpeedEstimate_perfPoseApplied (env : Env) (inp : TickInput) (s : RobotState) (t : JNum) :
    (updateSpeedEstimate env inp s t).perfPoseApplied = s.perfPoseApplied := by
  unfold updateSpeedEstimate
  dsimp only
  (repeat' split) <;> rfl

theorem updateSpeedEstimate_perfWindowStartedMs (env : Env) (inp : TickInput) (s : RobotState) (t : JNum) :
    (updateSpeedEstimate env inp s t).perfWindowStartedMs = s.perfWindowStartedMs := by
  unfold updateSpeedEstimate
  dsimp only
  (repeat' split) <;> rfl

theorem updateSpeedEstimate_modelHeadingOffset (env : Env) (inp : TickInput) (s : RobotState) (t : JNum) :
    (updateSpeedEstimate env inp s t).modelHeadingOffset = s.modelHeadingOffset := by
  unfold updateSpeedEstimate
  dsimp only
  (repeat' split) <;> rfl

theorem updateSpeedEstimate_headingCalibrationSamples (env : Env) (inp : TickInput) (s : RobotState) (t : JNum) :
    (updateSpeedEstimate env inp s t).headingCalibrationSamples = s.headingCalibrationSamples := by
  unfold updateSpeedEstimate
  dsimp only
  (repeat' split) <;> rfl

theorem maybeEmitPerfStatus_latestPayload (env : Env) (inp : TickInput) (s : RobotState) :
    (maybeEmitPerfStatus env inp s).latestPayload = s.latestPayload := by
  unfold maybeEmitPerfStatus
  try dsimp only
  (repeat' split) <;> rfl

theorem maybeEmitPerfStatus_lastProcessedT (env : Env) (inp : TickInput) (s : RobotState) :
    (maybeEmitPerfStatus env inp s).lastProcessedT = s.lastProcessedT := by
  unfold maybeEmitPerfStatus
  try dsimp only
  (repeat' split) <;> rfl

theorem maybeEmitPerfStatus_lastPoseApplyMs (env : Env) (inp : TickInput) (s : RobotState) :
    (maybeEmitPerfStatus env inp s).lastPoseApplyMs = s.lastPoseApplyMs := by
  unfold maybeEmitPerfStatus
  try dsimp only
  (repeat' split) <;> rfl

theorem maybeEmitPerfStatus_modelHeadingOffset (env : Env) (inp : TickInput) (s : RobotState) :
    (maybeEmitPerfStatus env inp s).modelHeadingOffset = s.modelHeadingOffset := by
  unfold maybeEmitPerfStatus
  try dsimp only
  (repeat' split) <;> rfl

theorem maybeEmitPerfStatus_headingCalibrationSamples (env : Env) (inp : TickInput) (s : RobotState) :
    (maybeEmitPerfStatus env inp s).headingCalibrationSamples = s.headingCalibrationSamples := by
  unfold maybeEmitPerfStatus
  try dsimp only
  (repeat' split) <;> rfl

theorem foldLinks_latestPayload (env : Env) (entries : List (String × LinkPose)) :
    ∀ s : RobotState, (entries.foldl (applyLinkStep env) s).latestPayload = s.latestPayload := by
  induction entries with
  | nil => intro s; rfl
  | cons e es ih =>
    intro s
    rw [List.foldl_cons, ih, applyLinkStep_latestPayload]

theorem applyLinkAnimation_latestPayload (env : Env) (s : RobotState)
    (l : Option (List (String × LinkPose))) :
    (applyLinkAnimation env s l).latestPayload = s.latestPayload := by
  unfold applyLinkAnimation
  (repeat' split) <;> first
    | rfl
    | exact foldLinks_latestPayload env _ s

theorem foldLinks_lastProcessedT (env : Env) (entries : List (String × LinkPose)) :
    ∀ s : RobotState, (entries.foldl (applyLinkStep env) s).lastProcessedT = s.lastProcessedT := by
  induction entries with
  | nil => intro s; rfl
  | cons e es ih =>
    intro s
    rw [List.foldl_cons, ih, applyLinkStep_lastProcessedT]

theorem applyLinkAnimation_lastProcessedT (env : Env) (s : RobotState)
    (l : Option (List (String × LinkPose))) :
    (applyLinkAnimation env s l).lastProcessedT = s.lastProcessedT := by
  unfold applyLinkAnimation
  (repeat' split) <;> first
    | rfl
    | exact foldLinks_lastProcessedT env _ s

theorem foldLinks_lastPoseApplyMs (env : Env) (entries : List (String × LinkPose)) :
    ∀ s : RobotState, (entries.foldl (applyLinkStep env) s).lastPoseApplyMs = s.lastPoseApplyMs := by
  induction entries with
  | nil => intro s; rfl
  | cons e es ih =>
    intro s
    rw [List.foldl_cons, ih, applyLinkStep_lastPoseApplyMs]

theorem applyLinkAnimation_lastPoseApplyMs (env : Env) (s : RobotState)
    (l : Option (List (String × LinkPose))) :
    (applyLinkAnimation env s l).lastPoseApplyMs = s.lastPoseApplyMs := by
  unfold applyLinkAnimation
  (repeat' split) <;> first
    | rfl
    | exact foldLinks_lastPoseApplyMs env _ s

theorem foldLinks_perfPoseApplied (env : Env) (entries : List (String × LinkPose)) :
    ∀ s : RobotState, (entries.foldl (applyLinkStep env) s).perfPoseApplied = s.perfPoseApplied := by
  induction entries with
  | nil => intro s; rfl
  | cons e es ih =>
    intro s
    rw [List.foldl_cons, ih, applyLinkStep_perfPoseApplied]

theorem applyLinkAnimation_perfPoseApplied (env : Env) (s : RobotState)
    (l : Option (List (String × LinkPose))) :
    (applyLinkAnimation env s l).perfPoseApplied = s.perfPoseApplied := by
  unfold applyLinkAnimation
  (repeat' split) <;> first
    | rfl
    | exact foldLinks_perfPoseApplied env _ s

theorem foldLinks_perfWindowStartedMs (env : Env) (entries : List (String × LinkPose)) :
    ∀ s : RobotState, (entries.foldl (applyLinkStep env) s).perfWindowStartedMs = s.perfWindowStartedMs := by
  induction entries with
  | nil => intro s; rfl
  | cons e es ih =>
    intro s
    rw [List.foldl_cons, ih, applyLinkStep_perfWindowStartedMs]

theorem applyLinkAnimation_perfWindowStartedMs (env : Env) (s : RobotState)
    (l : Option (List (String × LinkPose))) :
    (applyLinkAnimation env s l).perfWindowStartedMs = s.perfWindowStartedMs := by
  unfold applyLinkAnimation
  (repeat' split) <;> first
    | rfl
    | exact foldLinks_perfWindowStartedMs env _ s

theorem foldLinks_modelHeadingOffset (env : Env) (entries : List (String × LinkPose)) :
    ∀ s : RobotState, (entries.foldl (applyLinkStep env) s).modelHeadingOffset = s.modelHeadingOffset := by
  induction entries with
  | nil => intro s; rfl
  | cons e es ih =>
    intro s
    rw [List.foldl_cons, ih, applyLinkStep_modelHeadingOffset]

theorem applyLinkAnimation_modelHeadingOffset (env : Env) (s : RobotState)
    (l : Option (List (String × LinkPose))) :
    (applyLinkAnimation env s l).modelHeadingOffset = s.modelHeadingOffset := by
  unfold applyLinkAnimation
  (repeat' split) <;> first
    | rfl
    | exact foldLinks_modelHeadingOffset env _ s

theorem foldLinks_headingCalibrationSamples (env : Env) (entries : List (String × LinkPose)) :
    ∀ s : RobotState, (entries.foldl (applyLinkStep env) s).headingCalibrationSamples = s.headingCalibrationSamples := by
  induction entries with
  | nil => intro s; rfl
  | cons e es ih =>
    intro s
    rw [List.foldl_cons, ih, applyLinkStep_headingCalibrationSamples]

theorem applyLinkAnimation_headingCalibrationSamples (env : Env) (s : RobotState)
    (l : Option (List (String × LinkPose))) :
    (applyLinkAnimation env s l).headingCalibrationSamples = s.headingCalibrationSamples := by
  unfold applyLinkAnimation
  (repeat' split) <;> first
    | rfl
    | exact foldLinks_headingCalibrationSamples env _ s

theorem applyRootTransform_latestPayload (env : Env) (s : RobotState)
    (q : ℚ × ℚ × ℚ × ℚ) (mh : Option ℚ) :
    (applyRootTransform env s q mh).latestPayload = s.latestPayload := by
  unfold applyRootTransform
  dsimp only
  (repeat' split) <;> simp [maybeAutoCalibrateHeading_latestPayload]

theorem applyRootTransform_lastProcessedT (env : Env) (s : RobotState)
    (q : ℚ × ℚ × ℚ × ℚ) (mh : Option ℚ) :
    (applyRootTransform env s q mh).lastProcessedT = s.lastProcessedT := by
  unfold applyRootTransform
  dsimp only
  (repeat' split) <;> simp [maybeAutoCalibrateHeading_lastProcessedT]

theorem applyRootTransform_lastPoseApplyMs (env : Env) (s : RobotState)
    (q : ℚ × ℚ × ℚ × ℚ) (mh : Option ℚ) :
    (applyRootTransform env s q mh).lastPoseApplyMs = s.lastPoseApplyMs := by
  unfold applyRootTransform
  dsimp only
  (repeat' split) <;> simp [maybeAutoCalibrateHeading_lastPoseApplyMs]

theorem applyRootTransform_perfPoseApplied (env : Env) (s : RobotState)
    (q : ℚ × ℚ × ℚ × ℚ) (mh : Option ℚ) :
    (applyRootTransform env s q mh).perfPoseApplied = s.perfPoseApplied := by
  unfold applyRootTransform
  dsimp only
  (repeat' split) <;> simp [maybeAutoCalibrateHeading_perfPoseApplied]

theorem applyRootTransform_perfWindowStartedMs (env : Env) (s : RobotState)
    (q : ℚ × ℚ × ℚ × ℚ) (mh : Option ℚ) :
    (applyRootTransform env s q mh).perfWindowStartedMs = s.perfWindowStartedMs := by
  unfold applyRootTransform
  dsimp only
  (repeat' split) <;> simp [maybeAutoCalibrateHeading_perfWindowStartedMs]

/-- Once the sample budget is exhausted (as the manual override forces), the
calibration engine is a complete no-op. -/
theorem maybeAutoCalibrateHeading_noop (env : Env) (s : RobotState) (mh : Option ℚ)
    (h : 360 ≤ s.headingCalibrationSamples) :
    maybeAutoCalibrateHeading env s mh = s := by
  unfold maybeAutoCalibrateHeading
  cases mh with
  | none => rfl
  | some m =>
    dsimp only
    split
    · rfl
    · simp [h]

theorem applyRootTransform_modelHeadingOffset (env : Env) (s : RobotState)
    (q : ℚ × ℚ × ℚ × ℚ) (mh : Option ℚ) (h : 360 ≤ s.headingCalibrationSamples) :
    (applyRootTransform env s q mh).modelHeadingOffset = s.modelHeadingOffset := by
  unfold applyRootTransform
  dsimp only
  (repeat' split) <;> first
    | rfl
    | simp [maybeAutoCalibrateHeading_noop, h]

theorem applyRootTransform_headingCalibrationSamples (env : Env) (s : RobotState)
    (q : ℚ × ℚ × ℚ × ℚ) (mh : Option ℚ) (h : 360 ≤ s.headingCalibrationSamples) :
    (applyRootTransform env s q mh).headingCalibrationSamples = s.headingCalibrationSamples := by
  unfold applyRootTransform
  dsimp only
  (repeat' split) <;> first
    | rfl
    | simp [maybeAutoCalibrateHeading_noop, h]

/-- Before the 5 s measurement window elapses, `maybeEmitPerfStatus` changes
nothing. -/
theorem maybeEmitPerfStatus_noop (env : Env) (inp : TickInput) (s : RobotState)
    (h : (inp.perfNowMs - s.perfWindowStartedMs) / 1000 < 5.0) :
    maybeEmitPerfStatus env inp s = s := by
  unfold maybeEmitPerfStatus
  dsimp only
  rw [if_pos h]

theorem applyPose_latestPayload (env : Env) (inp : TickInput) (s : RobotState)
    (p : PosePayload) : (applyPose env inp s p).latestPayload = s.latestPayload := by
  unfold applyPose
  dsimp only
  (repeat' split) <;> first
    | rfl
    | simp [updateSpeedEstimate_latestPayload, applyLinkAnimation_latestPayload, applyRootTransform_latestPayload,
        estimateMotionHeading_latestPayload, sampleTerrainHeight_latestPayload, emitNavigationContext_latestPayload]

theorem applyPose_lastProcessedT (env : Env) (inp : TickInput) (s : RobotState)
    (p : PosePayload) : (applyPose env inp s p).lastProcessedT = s.lastProcessedT := by
  unfold applyPose
  dsimp only
  (repeat' split) <;> first
    | rfl
    | simp [updateSpeedEstimate_lastProcessedT, applyLinkAnimation_lastProcessedT, applyRootTransform_lastProcessedT,
        estimateMotionHeading_lastProcessedT, sampleTerrainHeight_lastProcessedT, emitNavigationContext_lastProcessedT]

theorem applyPose_lastPoseApplyMs (env : Env) (inp : TickInput) (s : RobotState)
    (p : PosePayload) : (applyPose env inp s p).lastPoseApplyMs = s.lastPoseApplyMs := by
  unfold applyPose
  dsimp only
  (repeat' split) <;> first
    | rfl
    | simp [updateSpeedEstimate_lastPoseApplyMs, applyLinkAnimation_lastPoseApplyMs, applyRootTransform_lastPoseApplyMs,
        estimateMotionHeading_lastPoseApplyMs, sampleTerrainHeight_lastPoseApplyMs, emitNavigationContext_lastPoseApplyMs]

theorem applyPose_perfPoseApplied (env : Env) (inp : TickInput) (s : RobotState)
    (p : PosePayload) : (applyPose env inp s p).perfPoseApplied = s.perfPoseApplied := by
  unfold applyPose
  dsimp only
  (repeat' split) <;> first
    | rfl
    | simp [updateSpeedEstimate_perfPoseApplied, applyLinkAnimation_perfPoseApplied, applyRootTransform_perfPoseApplied,
        estimateMotionHeading_perfPoseApplied, sampleTerrainHeight_perfPoseApplied, emitNavigationContext_perfPoseApplied]

theorem applyPose_perfWindowStartedMs (env : Env) (inp : TickInput) (s : RobotState)
    (p : PosePayload) : (applyPose env inp s p).perfWindowStartedMs = s.perfWindowStartedMs := by
  unfold applyPose
  dsimp only
  (repeat' split) <;> first
    | rfl
    | simp [updateSpeedEstimate_perfWindowStartedMs, applyLinkAnimation_perfWindowStartedMs, applyRootTransform_perfWindowStartedMs,
        estimateMotionHeading_perfWindowStartedMs, sampleTerrainHeight_perfWindowStartedMs, emitNavigationContext_perfWindowStartedMs]

theorem applyPose_modelHeadingOffset (env : Env) (inp : TickInput) (s : RobotState)
    (p : PosePayload) (h : 360 ≤ s.headingCalibrationSamples) :
    (applyPose env inp s p).modelHeadingOffset = s.modelHeadingOffset := by
  unfold applyPose
  dsimp only
  (repeat' split) <;> first
    | rfl
    | simp [updateSpeedEstimate_modelHeadingOffset, applyLinkAnimation_modelHeadingOffset, applyRootTransform_modelHeadingOffset,
        estimateMotionHeading_modelHeadingOffset, sampleTerrainHeight_modelHeadingOffset, emitNavigationContext_modelHeadingOffset,
        updateSpeedEstimate_headingCalibrationSamples, applyLinkAnimation_headingCalibrationSamples,
        estimateMotionHeading_headingCalibrationSamples, sampleTerrainHeight_headingCalibrationSamples,
        emitNavigationContext_headingCalibrationSamples, h]

theorem applyPose_headingCalibrationSamples (env : Env) (inp : TickInput) (s : RobotState)
    (p : PosePayload) (h : 360 ≤ s.headingCalibrationSamples) :
    (applyPose env inp s p).headingCalibrationSamples = s.headingCalibrationSamples := by
  unfold applyPose
  dsimp only
  (repeat' split) <;> first
    | rfl
    | simp [updateSpeedEstimate_headingCalibrationSamples, applyLinkAnimation_headingCalibrationSamples, applyRootTransform_headingCalibrationSamples,
        estimateMotionHeading_headingCalibrationSamples, sampleTerrainHeight_headingCalibrationSamples, emitNavigationContext_headingCalibrationSamples,
        updateSpeedEstimate_headingCalibrationSamples, applyLinkAnimation_headingCalibrationSamples,
        estimateMotionHeading_headingCalibrationSamples, sampleTerrainHeight_headingCalibrationSamples,
        emitNavigationContext_headingCalibrationSamples, h]

theorem update_latestPayload (env : Env) (inp : TickInput) (s : RobotState) :
    (update env inp s).latestPayload = s.latestPayload := by
  unfold update
  dsimp only
  (repeat' split) <;> first
    | rfl
    | simp [maybeEmitPerfStatus_latestPayload, applyPose_latestPayload]

theorem update_modelHeadingOffset (env : Env) (inp : TickInput) (s : RobotState)
    (h : 360 ≤ s.headingCalibrationSamples) :
    (update env inp s).modelHeadingOffset = s.modelHeadingOffset := by
  unfold update
  dsimp only
  (repeat' split) <;> first
    | rfl
    | simp [maybeEmitPerfStatus_modelHeadingOffset, applyPose_modelHeadingOffset, applyPose_headingCalibrationSamples, h]

theorem update_headingCalibrationSamples (env : Env) (inp : TickInput) (s : RobotState)
    (h : 360 ≤ s.headingCalibrationSamples) :
    (update env inp s).headingCalibrationSamples = s.headingCalibrationSamples := by
  unfold update
  dsimp only
  (repeat' split) <;> first
    | rfl
    | simp [maybeEmitPerfStatus_headingCalibrationSamples, applyPose_headingCalibrationSamples, applyPose_headingCalibrationSamples, h]

theorem isDupStamp_some_eq {q : ℚ} {b : JNum} (h : isDupStamp (some q) b = true) :
    b = some q := by
  cases b with
  | none => simp [isDupStamp] at h
  | some r =>
    simp only [isDupStamp, beq_iff_eq] at h
    rw [h]

/-- Whatever branch `update` takes on a payload carrying a finite stamp, the
last-processed stamp afterwards is that stamp. -/
theorem update_lastProcessedT_of_stamp (env : Env) (inp : TickInput) (s : RobotState)
    (p : PosePayload) (q : ℚ) (hp : s.latestPayload = some p)
    (hroot : p.root.isSome) (ht : p.t = some q) :
    (update env inp s).lastProcessedT = some q := by
  obtain ⟨r, hr⟩ := Option.isSome_iff_exists.mp hroot
  unfold update
  simp only [hp, hr, ht]
  split
  · next hdup => exact isDupStamp_some_eq hdup
  · split
    · rfl
    · simp [maybeEmitPerfStatus_lastProcessedT, applyPose_lastProcessedT]

/-! ## Claim theorems -/

/-- C7: `lerpAngle` always blends along the shortest circular arc: the
wrapped delta it advances along never exceeds `π` in magnitude, is
congruent to `end - start` modulo `2π`, at factor 1 the result is the end
angle modulo `2π`, and blending 350° toward 10° with factor 1/2 passes
through 360°/0° (landing on `2π`), never backward through 180°. -/
theorem lerpAngle_shortest_arc (pi start stop factor : ℚ) (hpi : 0 < pi)
    (hf0 : 0 ≤ factor) (hf1 : factor ≤ 1) :
    (|lerpDelta pi start stop| ≤ pi ∧
      (∃ k : ℤ, (stop - start) - lerpDelta pi start stop = 2 * pi * k) ∧
      lerpAngle pi start stop factor =
        zeroToTwoPi pi (zeroToTwoPi pi start + lerpDelta pi start stop * factor)) ∧
    (∃ k : ℤ, lerpAngle pi start stop 1 = stop + 2 * pi * k) ∧
    lerpAngle pi (350 * (pi / 180)) (10 * (pi / 180)) (1 / 2) = 2 * pi := by
  refine ⟨⟨lerpDelta_bounded pi start stop hpi, lerpDelta_congr pi start stop,
    lerpAngle_eq_delta_form pi start stop factor⟩, ?_, lerpAngle_wrap_example pi hpi⟩
  obtain ⟨k1, h1⟩ := zeroToTwoPi_congr pi start
  obtain ⟨k2, h2⟩ := lerpDelta_congr pi start stop
  obtain ⟨k3, h3⟩ := zeroToTwoPi_congr pi (zeroToTwoPi pi start + lerpDelta pi start stop * 1)
  refine ⟨k1 - k2 + k3, ?_⟩
  rw [lerpAngle_eq_delta_form, h3, h1]
  push_cast
  nlinarith [h2]

/-- Witness for C7 at `pi = 4`, `start = 0`, `stop = 0`, `factor = 1/2`. -/
theorem lerpAngle_shortest_arc_witness :
    (0 : ℚ) < 4 ∧ (0 : ℚ) ≤ 1 / 2 ∧ (1 / 2 : ℚ) ≤ 1 ∧
    ((|lerpDelta 4 0 0| ≤ 4 ∧
      (∃ k : ℤ, ((0 : ℚ) - 0) - lerpDelta 4 0 0 = 2 * 4 * k) ∧
      lerpAngle 4 0 0 (1 / 2) =
        zeroToTwoPi 4 (zeroToTwoPi 4 0 + lerpDelta 4 0 0 * (1 / 2))) ∧
    (∃ k : ℤ, lerpAngle 4 0 0 1 = 0 + 2 * 4 * k) ∧
    lerpAngle 4 (350 * (4 / 180)) (10 * (4 / 180)) (1 / 2) = 2 * 4) :=
  ⟨by norm_num, by norm_num, by norm_num,
    lerpAngle_shortest_arc 4 0 0 (1 / 2) (by norm_num) (by norm_num) (by norm_num)⟩

/-- C9: with an open channel and a non-empty candidate list,
`sendDynamicObstacles` sends exactly the cleaned candidates that pass
validation, in input order, bumping the sequence number; if no candidate
passes validation, no message is sent at all. -/
theorem sendDynamicObstacles_validation (s : RobotState) (wallMs : ℚ)
    (obstacles : List ObstacleIn) (hws : s.wsReady = true)
    (hne : obstacles.length ≠ 0) :
    ((((obstacles.map cleanObstacle).filter validObstacle).length ≠ 0 →
      sendDynamicObstacles s wallMs obstacles =
        { s with dynamicObstacleSeq := s.dynamicObstacleSeq + 1,
                 perfWsOut := s.perfWsOut + 1,
                 sentMessages := s.sentMessages ++
                   [OutMsg.dynamicObstacles (s.dynamicObstacleSeq + 1) wallMs
                     ((obstacles.map cleanObstacle).filter validObstacle)] }) ∧
    (((obstacles.map cleanObstacle).filter validObstacle).length = 0 →
      sendDynamicObstacles s wallMs obstacles = s)) ∧
    (obstacles.map cleanObstacle).filter validObstacle =
      (obstacles.filter fun o => validObstacle (cleanObstacle o)).map cleanObstacle := by
  constructor
  · unfold sendDynamicObstacles
    rw [if_neg (by simp [hws]), if_neg hne]
    constructor
    · intro h
      rw [if_neg h]
    · intro h
      rw [if_pos h]
  · rw [List.filter_map]
    rfl

/-- Witness for C9: one valid obstacle and one invalid (negative radius)
obstacle; only the valid entry survives validation. -/
theorem sendDynamicObstacles_validation_witness :
    ({ initState with wsReady := true } : RobotState).wsReady = true ∧
    ([⟨"car1", some 1, some 2, some 5, "vehicle", some 0⟩,
      ⟨"bad", some 1, some 2, some (-3), "vehicle", some 0⟩] : List ObstacleIn).length ≠ 0 ∧
    ((((([⟨"car1", some 1, some 2, some 5, "vehicle", some 0⟩,
      ⟨"bad", some 1, some 2, some (-3), "vehicle", some 0⟩] : List ObstacleIn).map
        cleanObstacle).filter validObstacle).length ≠ 0 →
      sendDynamicObstacles { initState with wsReady := true } 7
        [⟨"car1", some 1, some 2, some 5, "vehicle", some 0⟩,
         ⟨"bad", some 1, some 2, some (-3), "vehicle", some 0⟩] =
        { ({ initState with wsReady := true } : RobotState) with
            dynamicObstacleSeq := ({ initState with wsReady := true } : RobotState).dynamicObstacleSeq + 1,
            perfWsOut := ({ initState with wsReady := true } : RobotState).perfWsOut + 1,
            sentMessages := ({ initState with wsReady := true } : RobotState).sentMessages ++
              [OutMsg.dynamicObstacles
                (({ initState with wsReady := true } : RobotState).dynamicObstacleSeq + 1) 7
                ((([⟨"car1", some 1, some 2, some 5, "vehicle", some 0⟩,
                    ⟨"bad", some 1, some 2, some (-3), "vehicle", some 0⟩] : List ObstacleIn).map
                      cleanObstacle).filter validObstacle)] }) ∧
    (((([⟨"car1", some 1, some 2, some 5, "vehicle", some 0⟩,
      ⟨"bad", some 1, some 2, some (-3), "vehicle", some 0⟩] : List ObstacleIn).map
        cleanObstacle).filter validObstacle).length = 0 →
      sendDynamicObstacles { initState with wsReady := true } 7
        [⟨"car1", some 1, some 2, some 5, "vehicle", some 0⟩,
         ⟨"bad", some 1, some 2, some (-3), "vehicle", some 0⟩] =
        { initState with wsReady := true })) ∧
    (([⟨"car1", some 1, some 2, some 5, "vehicle", some 0⟩,
       ⟨"bad", some 1, some 2, some (-3), "vehicle", some 0⟩] : List ObstacleIn).map
        cleanObstacle).filter validObstacle =
      (([⟨"car1", some 1, some 2, some 5, "vehicle", some 0⟩,
         ⟨"bad", some 1, some 2, some (-3), "vehicle", some 0⟩] : List ObstacleIn).filter
          fun o => validObstacle (cleanObstacle o)).map cleanObstacle :=
  ⟨rfl, by decide,
    sendDynamicObstacles_validation { initState with wsReady := true } 7
      [⟨"car1", some 1, some 2, some 5, "vehicle", some 0⟩,
       ⟨"bad", some 1, some 2, some (-3), "vehicle", some 0⟩] rfl (by decide)⟩

/-- When the stored payload's finite stamp equals the last-processed stamp,
`update` is a complete no-op. -/
theorem update_noop_of_dup (env : Env) (inp : TickInput) (s : RobotState)
    (p : PosePayload) (hp : s.latestPayload = some p) (hroot : p.root.isSome)
    (hdup : isDupStamp p.t s.lastProcessedT = true) :
    update env inp s = s := by
  obtain ⟨r, hr⟩ := Option.isSome_iff_exists.mp hroot
  unfold update
  simp only [hp, hr]
  rw [if_pos hdup]

/-- Helper: a second tick on the same finite-stamped payload is a no-op. -/
theorem update_update_eq (env : Env) (inp1 inp2 : TickInput)
    (s : RobotState) (p : PosePayload) (q : ℚ) (hp : s.latestPayload = some p)
    (hroot : p.root.isSome) (ht : p.t = some q) :
    update env inp2 (update env inp1 s) = update env inp1 s := by
  apply update_noop_of_dup env inp2 (update env inp1 s) p
  · rw [update_latestPayload, hp]
  · exact hroot
  · rw [ht, update_lastProcessedT_of_stamp env inp1 s p q hp hroot ht]
    simp [isDupStamp]

/-- C2: running the per-tick update twice on the same stored payload (same
finite timestamp) mutates state only once — the second run returns the
state of the first run unchanged, so no render, terrain, calibration or
speed state changes on the second run. -/
theorem update_idempotent_on_same_payload (env : Env) (inp1 inp2 : TickInput)
    (s : RobotState) (p : PosePayload) (q : ℚ) (hp : s.latestPayload = some p)
    (hroot : p.root.isSome) (ht : p.t = some q) :
    update env inp2 (update env inp1 s) = update env inp1 s :=
  update_update_eq env inp1 inp2 s p q hp hroot ht

/-- Witness for C2 at the concrete state `c1State` holding `payloadA`. -/
theorem update_idempotent_on_same_payload_witness :
    c1State.latestPayload = some payloadA ∧ payloadA.root.isSome = true ∧
    payloadA.t = some 1 ∧
    update cEnv tick2 (update cEnv tick1 c1State) = update cEnv tick1 c1State :=
  ⟨rfl, rfl, rfl,
    update_idempotent_on_same_payload cEnv tick1 tick2 c1State payloadA 1 rfl rfl rfl⟩

/-- Helper: a rate-limited tick records the stamp and changes nothing else. -/
theorem update_rate_limited_eq (env : Env) (inp : TickInput) (s : RobotState)
    (p : PosePayload) (q : ℚ) (hp : s.latestPayload = some p) (hroot : p.root.isSome)
    (ht : p.t = some q) (hnew : isDupStamp p.t s.lastProcessedT = false)
    (hrate : inp.nowMs - s.lastPoseApplyMs < 33) :
    update env inp s = { s with lastProcessedT := some q } := by
  obtain ⟨r, hr⟩ := Option.isSome_iff_exists.mp hroot
  unfold update
  simp only [hp, hr, ht]
  rw [ht] at hnew
  rw [if_neg (by simp [hnew])]
  try dsimp only
  rw [if_pos hrate]

/-- Helper: any later tick with the dropped payload still stored is a no-op. -/
theorem update_dropped_noop (env : Env) (inp' : TickInput) (s : RobotState)
    (p : PosePayload) (q : ℚ) (hp : s.latestPayload = some p) (hroot : p.root.isSome)
    (ht : p.t = some q) :
    update env inp' { s with lastProcessedT := some q } =
      { s with lastProcessedT := some q } := by
  apply update_noop_of_dup env inp' _ p
  · show s.latestPayload = some p
    exact hp
  · exact hroot
  · rw [ht]
    simp [isDupStamp]

/-- C1 (amended): when the minimum inter-apply interval has not elapsed, a
stored payload with a fresh finite timestamp is dropped, not retried: the
tick records its stamp as last-processed without applying it, and every
subsequent tick with that payload still stored is a complete no-op. -/
theorem rate_limited_payload_dropped (env : Env) (inp : TickInput) (s : RobotState)
    (p : PosePayload) (q : ℚ) (hp : s.latestPayload = some p) (hroot : p.root.isSome)
    (ht : p.t = some q) (hnew : isDupStamp p.t s.lastProcessedT = false)
    (hrate : inp.nowMs - s.lastPoseApplyMs < 33) :
    update env inp s = { s with lastProcessedT := some q } ∧
    ∀ inp' : TickInput,
      update env inp' { s with lastProcessedT := some q } =
        { s with lastProcessedT := some q } :=
  ⟨update_rate_limited_eq env inp s p q hp hroot ht hnew hrate,
   fun inp' => update_dropped_noop env inp' s p q hp hroot ht⟩

/-- C1 fails on the code: `update` records the payload's stamp as processed
before the 33 ms rate check, so the concrete rate-limited payload below is
treated as a duplicate on the next tick and never applied — the second
tick clears the interval yet changes nothing and the pose-apply counter
stays 0. -/
theorem rate_limited_payload_dropped_counterexample :
    tick1.nowMs - c1State.lastPoseApplyMs < 33 ∧
    ¬ (tick2.nowMs - (update cEnv tick1 c1State).lastPoseApplyMs < 33) ∧
    (update cEnv tick1 c1State).perfPoseApplied = 0 ∧
    (update cEnv tick1 c1State).lastProcessedT = some 1 ∧
    update cEnv tick2 (update cEnv tick1 c1State) = update cEnv tick1 c1State ∧
    (update cEnv tick2 (update cEnv tick1 c1State)).perfPoseApplied = 0 := by
  have hrate1 : tick1.nowMs - c1State.lastPoseApplyMs < 33 := by
    norm_num [tick1, c1State, initState]
  have h1 : update cEnv tick1 c1State = { c1State with lastProcessedT := some 1 } :=
    update_rate_limited_eq cEnv tick1 c1State payloadA 1 rfl rfl rfl rfl hrate1
  have h2 : update cEnv tick2 (update cEnv tick1 c1State) = update cEnv tick1 c1State :=
    update_update_eq cEnv tick1 tick2 c1State payloadA 1 rfl rfl rfl
  refine ⟨hrate1, ?_, ?_, ?_, h2, ?_⟩
  · rw [h1]
    norm_num [tick2, c1State, initState]
  · rw [h1]
    try rfl
  · rw [h1]
    try rfl
  · rw [h2, h1]
    try rfl

/-- Witness for the amended C1 at the concrete state `c1State`. -/
theorem rate_limited_payload_dropped_witness :
    c1State.latestPayload = some payloadA ∧ payloadA.root.isSome = true ∧
    payloadA.t = some 1 ∧ isDupStamp payloadA.t c1State.lastProcessedT = false ∧
    tick1.nowMs - c1State.lastPoseApplyMs < 33 ∧
    (update cEnv tick1 c1State = { c1State with lastProcessedT := some 1 } ∧
      ∀ inp' : TickInput,
        update cEnv inp' { c1State with lastProcessedT := some 1 } =
          { c1State with lastProcessedT := some 1 }) :=
  ⟨rfl, rfl, rfl, rfl, by norm_num [tick1, c1State, initState],
    rate_limited_payload_dropped cEnv tick1 c1State payloadA 1 rfl rfl rfl rfl
      (by norm_num [tick1, c1State, initState])⟩

/-- One tick on a stored payload whose timestamp is non-finite, once the
rate limit and perf window allow: the payload is applied (pose counter
increments, throttle clock advances) and the wall clock is recorded as
the last-processed stamp. -/
theorem update_applies_nonfinite_stamp (env : Env) (inp : TickInput) (s : RobotState)
    (p : PosePayload) (hp : s.latestPayload = some p) (hroot : p.root.isSome)
    (ht : p.t = none) (hrate : ¬ (inp.nowMs - s.lastPoseApplyMs < 33))
    (hwin : (inp.perfNowMs - s.perfWindowStartedMs) / 1000 < 5.0) :
    (update env inp s).lastProcessedT = some inp.wallMs ∧
    (update env inp s).perfPoseApplied = s.perfPoseApplied + 1 ∧
    (update env inp s).lastPoseApplyMs = inp.nowMs ∧
    (update env inp s).perfWindowStartedMs = s.perfWindowStartedMs ∧
    (update env inp s).latestPayload = s.latestPayload := by
  obtain ⟨r, hr⟩ := Option.isSome_iff_exists.mp hroot
  unfold update
  simp only [hp, hr, ht]
  rw [if_neg (by simp [isDupStamp])]
  try dsimp only
  rw [if_neg hrate]
  rw [maybeEmitPerfStatus_noop _ _ _ (by rw [applyPose_perfWindowStartedMs]; exact hwin)]
  simp [applyPose_lastProcessedT, applyPose_perfPoseApplied, applyPose_lastPoseApplyMs,
    applyPose_perfWindowStartedMs, applyPose_latestPayload, hp]

/-- C10: a stored payload with a non-finite timestamp is never treated as a
duplicate: the tick records the wall clock (not the payload stamp) as
last-processed, and an identical redelivery on a later tick clearing the
rate limit is applied again — the duplicate-skip guarantee holds only for
finite timestamps. -/
theorem nonfinite_stamp_always_reapplied (env : Env) (inp1 inp2 : TickInput)
    (s : RobotState) (p : PosePayload) (hp : s.latestPayload = some p)
    (hroot : p.root.isSome) (ht : p.t = none)
    (hrate1 : ¬ (inp1.nowMs - s.lastPoseApplyMs < 33))
    (hwin1 : (inp1.perfNowMs - s.perfWindowStartedMs) / 1000 < 5.0)
    (hrate2 : ¬ (inp2.nowMs - inp1.nowMs < 33))
    (hwin2 : (inp2.perfNowMs - s.perfWindowStartedMs) / 1000 < 5.0) :
    (update env inp1 s).lastProcessedT = some inp1.wallMs ∧
    (update env inp1 s).perfPoseApplied = s.perfPoseApplied + 1 ∧
    (update env inp2 (update env inp1 s)).lastProcessedT = some inp2.wallMs ∧
    (update env inp2 (update env inp1 s)).perfPoseApplied = s.perfPoseApplied + 2 := by
  obtain ⟨h1last, h1count, h1ms, h1win, h1pay⟩ :=
    update_applies_nonfinite_stamp env inp1 s p hp hroot ht hrate1 hwin1
  obtain ⟨h2last, h2count, _, _, _⟩ :=
    update_applies_nonfinite_stamp env inp2 (update env inp1 s) p
      (by rw [h1pay, hp]) hroot ht
      (by rw [h1ms]; exact hrate2)
      (by rw [h1win]; exact hwin2)
  refine ⟨h1last, h1count, h2last, ?_⟩
  rw [h2count, h1count]

/-- Witness for C10 with the concrete stamp-less payload `payloadNoT`. -/
theorem nonfinite_stamp_always_reapplied_witness :
    ({ initState with latestPayload := some payloadNoT } : RobotState).latestPayload =
      some payloadNoT ∧
    payloadNoT.root.isSome = true ∧ payloadNoT.t = none ∧
    ¬ (tick1.nowMs -
        ({ initState with latestPayload := some payloadNoT } : RobotState).lastPoseApplyMs < 33) ∧
    ¬ (tick2.nowMs - tick1.nowMs < 33) ∧
    ((update cEnv tick1 { initState with latestPayload := some payloadNoT }).lastProcessedT =
        some tick1.wallMs ∧
      (update cEnv tick1 { initState with latestPayload := some payloadNoT }).perfPoseApplied =
        ({ initState with latestPayload := some payloadNoT } : RobotState).perfPoseApplied + 1 ∧
      (update cEnv tick2
          (update cEnv tick1 { initState with latestPayload := some payloadNoT })).lastProcessedT =
        some tick2.wallMs ∧
      (update cEnv tick2
          (update cEnv tick1 { initState with latestPayload := some payloadNoT })).perfPoseApplied =
        ({ initState with latestPayload := some payloadNoT } : RobotState).perfPoseApplied + 2) :=
  ⟨rfl, rfl, rfl, by norm_num [tick1, initState], by norm_num [tick1, tick2],
    nonfinite_stamp_always_reapplied cEnv tick1 tick2
      { initState with latestPayload := some payloadNoT } payloadNoT rfl rfl rfl
      (by norm_num [tick1, initState]) (by norm_num [tick1, initState])
      (by norm_num [tick1, tick2]) (by norm_num [tick2, initState])⟩

theorem emitNavigationContext_position (env : Env) (s : RobotState) (nv : Option NavRaw) :
    (emitNavigationContext env s nv).position = s.position := by
  unfold emitNavigationContext
  (repeat' split) <;> rfl

theorem emitNavigationContext_hprHeading (env : Env) (s : RobotState) (nv : Option NavRaw) :
    (emitNavigationContext env s nv).hprHeading = s.hprHeading := by
  unfold emitNavigationContext
  (repeat' split) <;> rfl

theorem emitNavigationContext_hprPitch (env : Env) (s : RobotState) (nv : Option NavRaw) :
    (emitNavigationContext env s nv).hprPitch = s.hprPitch := by
  unfold emitNavigationContext
  (repeat' split) <;> rfl

theorem emitNavigationContext_hprRoll (env : Env) (s : RobotState) (nv : Option NavRaw) :
    (emitNavigationContext env s nv).hprRoll = s.hprRoll := by
  unfold emitNavigationContext
  (repeat' split) <;> rfl

theorem emitNavigationContext_modelMatrix (env : Env) (s : RobotState) (nv : Option NavRaw) :
    (emitNavigationContext env s nv).modelMatrix = s.modelMatrix := by
  unfold emitNavigationContext
  (repeat' split) <;> rfl

theorem emitNavigationContext_smoothedHeadingRad (env : Env) (s : RobotState) (nv : Option NavRaw) :
    (emitNavigationContext env s nv).smoothedHeadingRad = s.smoothedHeadingRad := by
  unfold emitNavigationContext
  (repeat' split) <;> rfl

theorem emitNavigationContext_terrainHeightM (env : Env) (s : RobotState) (nv : Option NavRaw) :
    (emitNavigationContext env s nv).terrainHeightM = s.terrainHeightM := by
  unfold emitNavigationContext
  (repeat' split) <;> rfl

theorem emitNavigationContext_terrainHeightValid (env : Env) (s : RobotState) (nv : Option NavRaw) :
    (emitNavigationContext env s nv).terrainHeightValid = s.terrainHeightValid := by
  unfold emitNavigationContext
  (repeat' split) <;> rfl

theorem emitNavigationContext_velocity (env : Env) (s : RobotState) (nv : Option NavRaw) :
    (emitNavigationContext env s nv).velocity = s.velocity := by
  unfold emitNavigationContext
  (repeat' split) <;> rfl

theorem emitNavigationContext_speed (env : Env) (s : RobotState) (nv : Option NavRaw) :
    (emitNavigationContext env s nv).speed = s.speed := by
  unfold emitNavigationContext
  (repeat' split) <;> rfl

theorem estimateMotionHeading_position (env : Env) (s : RobotState) (la lo : ℚ) :
    ((estimateMotionHeading env s la lo).2).position = s.position := by
  unfold estimateMotionHeading
  try dsimp only
  (repeat' split) <;> rfl

theorem maybeAutoCalibrateHeading_position (env : Env) (s : RobotState) (mh : Option ℚ) :
    (maybeAutoCalibrateHeading env s mh).position = s.position := by
  unfold maybeAutoCalibrateHeading
  try dsimp only
  (repeat' split) <;> rfl

theorem applyLinkStep_position (env : Env) (s : RobotState) (e : String × LinkPose) :
    (applyLinkStep env s e).position = s.position := by
  unfold applyLinkStep
  try dsimp only
  (repeat' split) <;> rfl

theorem updateSpeedEstimate_position (env : Env) (inp : TickInput) (s : RobotState) (t : JNum) :
    (updateSpeedEstimate env inp s t).position = s.position := by
  unfold updateSpeedEstimate
  try dsimp only
  (repeat' split) <;> rfl

theorem applyRootTransform_position (env : Env) (s : RobotState)
    (q : ℚ × ℚ × ℚ × ℚ) (mh : Option ℚ) :
    (applyRootTransform env s q mh).position = s.position := by
  unfold applyRootTransform
  dsimp only
  (repeat' split) <;> simp [maybeAutoCalibrateHeading_position]

theorem foldLinks_position (env : Env) (entries : List (String × LinkPose)) :
    ∀ s : RobotState, (entries.foldl (applyLinkStep env) s).position = s.position := by
  induction entries with
  | nil => intro s; rfl
  | cons e es ih =>
    intro s
    rw [List.foldl_cons, ih, applyLinkStep_position]

theorem applyLinkAnimation_position (env : Env) (s : RobotState)
    (l : Option (List (String × LinkPose))) :
    (applyLinkAnimation env s l).position = s.position := by
  unfold applyLinkAnimation
  (repeat' split) <;> first
    | rfl
    | exact foldLinks_position env _ s

/-- C3 fails on the code for the quaternion part: a frame whose root pose has
finite coordinates but a missing orientation quaternion is not skipped —
`sanitizeQuat` substitutes the identity quaternion and the frame is
applied, moving the render position. -/
theorem missing_quat_frame_applied_counterexample :
    payloadA.root = some rootA ∧ rootA.quat = none ∧
    (applyPose cEnv tick1 initState payloadA).position ≠ initState.position := by
  refine ⟨rfl, rfl, ?_⟩
  have hpos : (applyPose cEnv tick1 initState payloadA).position = ⟨20, 10, 0 + 0.86⟩ := by
    unfold applyPose
    norm_num [payloadA, rootA, initState, cEnv, tick1, emitNavigationContext,
      sampleTerrainHeight, updateSpeedEstimate_position, applyLinkAnimation_position,
      applyRootTransform_position, estimateMotionHeading_position]
  rw [hpos]
  show ¬ _ = _
  norm_num [initState, PosDeg.mk.injEq]

/-- C3 (amended): a frame whose root pose has a missing or non-finite
latitude or longitude is skipped entirely with all render, terrain,
calibration and speed state retained (only the navigation context is still
surfaced); a missing or non-finite orientation quaternion, however, does
not skip the frame — it is sanitized to the identity quaternion
`[1, 0, 0, 0]` and the frame is applied. -/
theorem nonfinite_latlon_skips_frame (env : Env) (inp : TickInput) (s : RobotState)
    (p : PosePayload) (root : RootPose) (hroot : p.root = some root)
    (hbad : root.lat = none ∨ root.lon = none) :
    ((applyPose env inp s p).position = s.position ∧
      (applyPose env inp s p).hprHeading = s.hprHeading ∧
      (applyPose env inp s p).hprPitch = s.hprPitch ∧
      (applyPose env inp s p).hprRoll = s.hprRoll ∧
      (applyPose env inp s p).modelMatrix = s.modelMatrix ∧
      (applyPose env inp s p).smoothedHeadingRad = s.smoothedHeadingRad ∧
      (applyPose env inp s p).terrainHeightM = s.terrainHeightM ∧
      (applyPose env inp s p).terrainHeightValid = s.terrainHeightValid ∧
      (applyPose env inp s p).modelHeadingOffset = s.modelHeadingOffset ∧
      (applyPose env inp s p).velocity = s.velocity ∧
      (applyPose env inp s p).speed = s.speed) ∧
    (∀ qr : QuatRaw, (qr.w = none ∨ qr.x = none ∨ qr.y = none ∨ qr.z = none) →
      sanitizeQuat (some qr) = (1, 0, 0, 0)) ∧
    sanitizeQuat none = (1, 0, 0, 0) := by
  refine ⟨?_, ?_, rfl⟩
  · unfold applyPose
    rcases hbad with h | h
    · simp [hroot, h, emitNavigationContext_position, emitNavigationContext_hprHeading,
        emitNavigationContext_hprPitch, emitNavigationContext_hprRoll,
        emitNavigationContext_modelMatrix, emitNavigationContext_smoothedHeadingRad,
        emitNavigationContext_terrainHeightM, emitNavigationContext_terrainHeightValid,
        emitNavigationContext_modelHeadingOffset, emitNavigationContext_velocity,
        emitNavigationContext_speed]
    · cases hlat : root.lat with
      | none =>
        simp [hroot, hlat, emitNavigationContext_position, emitNavigationContext_hprHeading,
          emitNavigationContext_hprPitch, emitNavigationContext_hprRoll,
          emitNavigationContext_modelMatrix, emitNavigationContext_smoothedHeadingRad,
          emitNavigationContext_terrainHeightM, emitNavigationContext_terrainHeightValid,
          emitNavigationContext_modelHeadingOffset, emitNavigationContext_velocity,
          emitNavigationContext_speed]
      | some v =>
        simp [hroot, hlat, h, emitNavigationContext_position, emitNavigationContext_hprHeading,
          emitNavigationContext_hprPitch, emitNavigationContext_hprRoll,
          emitNavigationContext_modelMatrix, emitNavigationContext_smoothedHeadingRad,
          emitNavigationContext_terrainHeightM, emitNavigationContext_terrainHeightValid,
          emitNavigationContext_modelHeadingOffset, emitNavigationContext_velocity,
          emitNavigationContext_speed]
  · intro qr h
    rcases qr with ⟨w, x, y, z⟩
    cases w <;> cases x <;> cases y <;> cases z <;> simp_all [sanitizeQuat]

/-- Witness for the amended C3 with the concrete missing-latitude payload. -/
theorem nonfinite_latlon_skips_frame_witness :
    payloadBadLat.root = some rootBadLat ∧
    (rootBadLat.lat = none ∨ rootBadLat.lon = none) ∧
    (((applyPose cEnv tick1 initState payloadBadLat).position = initState.position ∧
      (applyPose cEnv tick1 initState payloadBadLat).hprHeading = initState.hprHeading ∧
      (applyPose cEnv tick1 initState payloadBadLat).hprPitch = initState.hprPitch ∧
      (applyPose cEnv tick1 initState payloadBadLat).hprRoll = initState.hprRoll ∧
      (applyPose cEnv tick1 initState payloadBadLat).modelMatrix = initState.modelMatrix ∧
      (applyPose cEnv tick1 initState payloadBadLat).smoothedHeadingRad = initState.smoothedHeadingRad ∧
      (applyPose cEnv tick1 initState payloadBadLat).terrainHeightM = initState.terrainHeightM ∧
      (applyPose cEnv tick1 initState payloadBadLat).terrainHeightValid = initState.terrainHeightValid ∧
      (applyPose cEnv tick1 initState payloadBadLat).modelHeadingOffset = initState.modelHeadingOffset ∧
      (applyPose cEnv tick1 initState payloadBadLat).velocity = initState.velocity ∧
      (applyPose cEnv tick1 initState payloadBadLat).speed = initState.speed) ∧
    (∀ qr : QuatRaw, (qr.w = none ∨ qr.x = none ∨ qr.y = none ∨ qr.z = none) →
      sanitizeQuat (some qr) = (1, 0, 0, 0)) ∧
    sanitizeQuat none = (1, 0, 0, 0)) :=
  ⟨rfl, Or.inl rfl,
    nonfinite_latlon_skips_frame cEnv tick1 initState payloadBadLat rootBadLat rfl
      (Or.inl rfl)⟩

/-- C4: for an accepted fast-lock sample (speed at or above 0.12, sample
budget not exhausted, error within 70°), the sample count increments, the
aligned streak increments on a well-aligned sample (error at most 15°) and
resets otherwise, and fast lock exits exactly when the post-sample streak
reaches 20 or the post-sample count reaches 90 — on exit the flag is set,
the current offset is persisted and completion is announced; otherwise
nothing is persisted or announced. -/
theorem fast_lock_exit_condition (env : Env) (s : RobotState) (m : ℚ)
    (hlock : s.headingFastLockComplete = false)
    (hv : ¬ (s.velocity < 0.12))
    (hb : ¬ (360 ≤ s.headingCalibrationSamples))
    (herr : ¬ (toRadians env.pi 70 < |calError env s m|)) :
    (maybeAutoCalibrateHeading env s (some m)).headingCalibrationSamples =
      s.headingCalibrationSamples + 1 ∧
    (maybeAutoCalibrateHeading env s (some m)).headingAlignedStreak =
      (if |calError env s m| ≤ toRadians env.pi 15 then s.headingAlignedStreak + 1 else 0) ∧
    ((maybeAutoCalibrateHeading env s (some m)).headingFastLockComplete = true ↔
      (20 ≤ (maybeAutoCalibrateHeading env s (some m)).headingAlignedStreak ∨
        90 ≤ (maybeAutoCalibrateHeading env s (some m)).headingCalibrationSamples)) ∧
    ((maybeAutoCalibrateHeading env s (some m)).headingFastLockComplete = true →
      (maybeAutoCalibrateHeading env s (some m)).persistLog =
        s.persistLog ++ [(maybeAutoCalibrateHeading env s (some m)).modelHeadingOffset] ∧
      (maybeAutoCalibrateHeading env s (some m)).statusEvents =
        s.statusEvents ++ [StatusEvt.headingLockComplete
          (maybeAutoCalibrateHeading env s (some m)).modelHeadingOffset]) ∧
    ((maybeAutoCalibrateHeading env s (some m)).headingFastLockComplete = false →
      (maybeAutoCalibrateHeading env s (some m)).persistLog = s.persistLog ∧
      (maybeAutoCalibrateHeading env s (some m)).statusEvents = s.statusEvents) := by
  simp only [calError] at herr ⊢
  unfold maybeAutoCalibrateHeading
  dsimp only
  rw [if_neg hv, if_neg hb, if_neg herr, if_pos (by simp [hlock])]
  split <;> split
  · rename_i hexit
    refine ⟨rfl, rfl, by simpa using hexit, fun _ => ⟨rfl, rfl⟩, ?_⟩
    intro hfalse
    simp at hfalse
  · rename_i hexit
    refine ⟨rfl, rfl, ?_, ?_, fun _ => ⟨rfl, rfl⟩⟩
    · constructor
      · intro hcontra
        rw [hlock] at hcontra
        exact absurd hcontra (by simp)
      · intro hcontra
        exact absurd (by simpa using hcontra) hexit
    · intro htrue
      rw [hlock] at htrue
      exact absurd htrue (by simp)
  · rename_i hexit
    refine ⟨rfl, rfl, by simpa using hexit, fun _ => ⟨rfl, rfl⟩, ?_⟩
    intro hfalse
    simp at hfalse
  · rename_i hexit
    refine ⟨rfl, rfl, ?_, ?_, fun _ => ⟨rfl, rfl⟩⟩
    · constructor
      · intro hcontra
        rw [hlock] at hcontra
        exact absurd hcontra (by simp)
      · intro hcontra
        exact absurd (by simpa using hcontra) hexit
    · intro htrue
      rw [hlock] at htrue
      exact absurd htrue (by simp)

/-- Witness for C4: a fresh state moving at threshold speed with zero error
takes one accepted aligned sample (no exit yet: streak 1, samples 1). -/
theorem fast_lock_exit_condition_witness :
    ({ initState with velocity := 1 } : RobotState).headingFastLockComplete = false ∧
    ¬ (({ initState with velocity := 1 } : RobotState).velocity < 0.12) ∧
    ¬ (360 ≤ ({ initState with velocity := 1 } : RobotState).headingCalibrationSamples) ∧
    ¬ (toRadians cEnv.pi 70 < |calError cEnv { initState with velocity := 1 } 0|) ∧
    ((maybeAutoCalibrateHeading cEnv { initState with velocity := 1 } (some 0)).headingCalibrationSamples =
      ({ initState with velocity := 1 } : RobotState).headingCalibrationSamples + 1 ∧
    (maybeAutoCalibrateHeading cEnv { initState with velocity := 1 } (some 0)).headingAlignedStreak =
      (if |calError cEnv { initState with velocity := 1 } 0| ≤ toRadians cEnv.pi 15 then
        ({ initState with velocity := 1 } : RobotState).headingAlignedStreak + 1 else 0) ∧
    ((maybeAutoCalibrateHeading cEnv { initState with velocity := 1 } (some 0)).headingFastLockComplete = true ↔
      (20 ≤ (maybeAutoCalibrateHeading cEnv { initState with velocity := 1 } (some 0)).headingAlignedStreak ∨
        90 ≤ (maybeAutoCalibrateHeading cEnv { initState with velocity := 1 } (some 0)).headingCalibrationSamples)) ∧
    ((maybeAutoCalibrateHeading cEnv { initState with velocity := 1 } (some 0)).headingFastLockComplete = true →
      (maybeAutoCalibrateHeading cEnv { initState with velocity := 1 } (some 0)).persistLog =
        ({ initState with velocity := 1 } : RobotState).persistLog ++
          [(maybeAutoCalibrateHeading cEnv { initState with velocity := 1 } (some 0)).modelHeadingOffset] ∧
      (maybeAutoCalibrateHeading cEnv { initState with velocity := 1 } (some 0)).statusEvents =
        ({ initState with velocity := 1 } : RobotState).statusEvents ++
          [StatusEvt.headingLockComplete
            (maybeAutoCalibrateHeading cEnv { initState with velocity := 1 } (some 0)).modelHeadingOffset]) ∧
    ((maybeAutoCalibrateHeading cEnv { initState with velocity := 1 } (some 0)).headingFastLockComplete = false →
      (maybeAutoCalibrateHeading cEnv { initState with velocity := 1 } (some 0)).persistLog =
        ({ initState with velocity := 1 } : RobotState).persistLog ∧
      (maybeAutoCalibrateHeading cEnv { initState with velocity := 1 } (some 0)).statusEvents =
        ({ initState with velocity := 1 } : RobotState).statusEvents)) := by
  have h1 : ({ initState with velocity := 1 } : RobotState).headingFastLockComplete = false := rfl
  have h2 : ¬ (({ initState with velocity := 1 } : RobotState).velocity < 0.12) := by
    norm_num [initState]
  have h3 : ¬ (360 ≤ ({ initState with velocity := 1 } : RobotState).headingCalibrationSamples) := by
    norm_num [initState]
  have h4 : ¬ (toRadians cEnv.pi 70 < |calError cEnv { initState with velocity := 1 } 0|) := by
    norm_num [toRadians, calError, cEnv, initState, normalizeSignedAngle]
  exact ⟨h1, h2, h3, h4,
    fast_lock_exit_condition cEnv { initState with velocity := 1 } 0 h1 h2 h3 h4⟩

theorem updateModelMatrix_modelHeadingOffset (env : Env) (s : RobotState) :
    (updateModelMatrix env s).modelHeadingOffset = s.modelHeadingOffset := by
  unfold updateModelMatrix
  split <;> rfl

theorem updateModelMatrix_headingCalibrationSamples (env : Env) (s : RobotState) :
    (updateModelMatrix env s).headingCalibrationSamples = s.headingCalibrationSamples := by
  unfold updateModelMatrix
  split <;> rfl

theorem updateModelMatrix_headingFastLockComplete (env : Env) (s : RobotState) :
    (updateModelMatrix env s).headingFastLockComplete = s.headingFastLockComplete := by
  unfold updateModelMatrix
  split <;> rfl

/-- Once the sample budget reads as exhausted, any number of further ticks
leaves the calibration offset untouched. -/
theorem runTicks_modelHeadingOffset (env : Env) (inps : List TickInput) :
    ∀ s : RobotState, 360 ≤ s.headingCalibrationSamples →
      (runTicks env inps s).modelHeadingOffset = s.modelHeadingOffset := by
  induction inps with
  | nil => intro s _; rfl
  | cons i is ih =>
    intro s h
    show (runTicks env is (update env i s)).modelHeadingOffset = s.modelHeadingOffset
    rw [ih (update env i s) (by rw [update_headingCalibrationSamples env i s h]; exact h),
      update_modelHeadingOffset env i s h]

/-- C5: a manual override with a finite value normalizes and stores the
offset, marks calibration complete and exhausted, and from then on no
sequence of pose-update ticks ever changes the offset — the calibration
engine itself is a no-op whenever the sample budget reads as exhausted. -/
theorem manual_override_disables_autocalibration (env : Env) (s : RobotState) (v : ℚ)
    (inps : List TickInput) :
    (setModelHeadingOffsetRad env s (some v)).2.modelHeadingOffset =
      normalizeSignedAngle env.pi v ∧
    (setModelHeadingOffsetRad env s (some v)).2.headingCalibrationSamples = 360 ∧
    (setModelHeadingOffsetRad env s (some v)).2.headingFastLockComplete = true ∧
    (setModelHeadingOffsetRad env s (some v)).1 = normalizeSignedAngle env.pi v ∧
    (runTicks env inps (setModelHeadingOffsetRad env s (some v)).2).modelHeadingOffset =
      (setModelHeadingOffsetRad env s (some v)).2.modelHeadingOffset ∧
    (∀ t : RobotState, ∀ mh : Option ℚ, 360 ≤ t.headingCalibrationSamples →
      maybeAutoCalibrateHeading env t mh = t) := by
  refine ⟨?_, ?_, ?_, rfl, ?_, fun t mh h => maybeAutoCalibrateHeading_noop env t mh h⟩
  · show (updateModelMatrix env _).modelHeadingOffset = _
    rw [updateModelMatrix_modelHeadingOffset]
  · show (updateModelMatrix env _).headingCalibrationSamples = _
    rw [updateModelMatrix_headingCalibrationSamples]
  · show (updateModelMatrix env _).headingFastLockComplete = _
    rw [updateModelMatrix_headingFastLockComplete]
  · apply runTicks_modelHeadingOffset
    show (updateModelMatrix env _).headingCalibrationSamples ≥ 360
    rw [updateModelMatrix_headingCalibrationSamples]

/-- C6: an accepted terrain sample against a valid cache moves the cache by
exactly the blend factor times the delta — 0.75 when the magnitude of the
delta exceeds 2 units, 0.5 otherwise — and never by more than the delta;
a delta exceeding the 12-unit snap threshold replaces the cache with the
new sample immediately.  The returned height is the updated cache. -/
theorem terrain_blend_bound (env : Env) (inp : TickInput) (s : RobotState)
    (la lo h : ℚ) (hscene : env.hasScene = true)
    (hvalid : s.terrainHeightValid = true)
    (helapsed : ¬ (inp.terrainNowMs - s.lastTerrainSampleMs < 300))
    (hres : resolveSampledHeight inp.globeHeight inp.clampResult = some h)
    (hplaus : ¬ (3000 < |h|)) :
    (sampleTerrainHeight env inp s la lo).2.terrainHeightM =
      (if 12.0 < |h - s.terrainHeightM| then h
       else if 2.0 < |h - s.terrainHeightM| then
        s.terrainHeightM + (h - s.terrainHeightM) * 0.75
       else s.terrainHeightM + (h - s.terrainHeightM) * 0.5) ∧
    (¬ (12.0 < |h - s.terrainHeightM|) →
      |(sampleTerrainHeight env inp s la lo).2.terrainHeightM - s.terrainHeightM| ≤
        |h - s.terrainHeightM|) ∧
    (sampleTerrainHeight env inp s la lo).1 =
      (sampleTerrainHeight env inp s la lo).2.terrainHeightM := by
  have hmain : sampleTerrainHeight env inp s la lo =
      (if 12.0 < |h - s.terrainHeightM| then h
       else if 2.0 < |h - s.terrainHeightM| then
        s.terrainHeightM + (h - s.terrainHeightM) * 0.75
       else s.terrainHeightM + (h - s.terrainHeightM) * 0.5,
       { s with lastTerrainSampleMs := inp.terrainNowMs,
                perfTerrainQueries := s.perfTerrainQueries + 2,
                terrainHeightM :=
                  (if 12.0 < |h - s.terrainHeightM| then h
                   else if 2.0 < |h - s.terrainHeightM| then
                    s.terrainHeightM + (h - s.terrainHeightM) * 0.75
                   else s.terrainHeightM + (h - s.terrainHeightM) * 0.5) }) := by
    unfold sampleTerrainHeight
    rw [if_neg (by simp [hscene]), if_neg (fun hc => helapsed hc.1), hres]
    dsimp only
    rw [if_neg hplaus, if_neg (by simp [hvalid])]
  rw [hmain]
  refine ⟨rfl, ?_, rfl⟩
  intro hsnap
  dsimp only
  rw [if_neg hsnap]
  split
  · rw [add_sub_cancel_left, abs_mul, show |(0.75 : ℚ)| = 0.75 from by norm_num]
    nlinarith [abs_nonneg (h - s.terrainHeightM)]
  · rw [add_sub_cancel_left, abs_mul, show |(0.5 : ℚ)| = 0.5 from by norm_num]
    nlinarith [abs_nonneg (h - s.terrainHeightM)]

/-- Witness for C6: valid cache at height 0, accepted sample at height 4
(moderate delta, fast blend), in a scene-bearing environment. -/
theorem terrain_blend_bound_witness :
    c6Env.hasScene = true ∧ c6State.terrainHeightValid = true ∧
    ¬ (c6Tick.terrainNowMs - c6State.lastTerrainSampleMs < 300) ∧
    resolveSampledHeight c6Tick.globeHeight c6Tick.clampResult = some 4 ∧
    ¬ ((3000 : ℚ) < |(4 : ℚ)|) ∧
    ((sampleTerrainHeight c6Env c6Tick c6State 10 20).2.terrainHeightM =
      (if 12.0 < |(4 : ℚ) - c6State.terrainHeightM| then (4 : ℚ)
       else if 2.0 < |(4 : ℚ) - c6State.terrainHeightM| then
        c6State.terrainHeightM + ((4 : ℚ) - c6State.terrainHeightM) * 0.75
       else c6State.terrainHeightM + ((4 : ℚ) - c6State.terrainHeightM) * 0.5) ∧
    (¬ (12.0 < |(4 : ℚ) - c6State.terrainHeightM|) →
      |(sampleTerrainHeight c6Env c6Tick c6State 10 20).2.terrainHeightM -
          c6State.terrainHeightM| ≤ |(4 : ℚ) - c6State.terrainHeightM|) ∧
    (sampleTerrainHeight c6Env c6Tick c6State 10 20).1 =
      (sampleTerrainHeight c6Env c6Tick c6State 10 20).2.terrainHeightM) := by
  refine ⟨rfl, rfl, ?_, rfl, by norm_num, ?_⟩
  · norm_num [c6Tick, c6State, tick2, initState]
  · exact terrain_blend_bound c6Env c6Tick c6State 10 20 4 rfl rfl
      (by norm_num [c6Tick, c6State, tick2, initState]) rfl (by norm_num)

/-! ## Connection lifecycle lemmas -/

theorem clearTimeoutId_destroyed (c : ConnState) (id : ℕ) :
    (clearTimeoutId c id).destroyed = c.destroyed := by
  unfold clearTimeoutId
  (repeat' split) <;> rfl

theorem clearTimeoutId_nextTimerId (c : ConnState) (id : ℕ) :
    (clearTimeoutId c id).nextTimerId = c.nextTimerId := by
  unfold clearTimeoutId
  (repeat' split) <;> rfl

theorem clearTimeoutId_connectAttempts (c : ConnState) (id : ℕ) :
    (clearTimeoutId c id).connectAttempts = c.connectAttempts := by
  unfold clearTimeoutId
  (repeat' split) <;> rfl

/-- Behaviour of the `onclose` handler on a live (not destroyed) robot:
emits `offline`, stops both perception timers and any pending capture, and
schedules exactly one reconnect timeout with the fixed 1500 ms delay
(recorded in both the instance field and the scheduler). -/
theorem onClose_spec (c : ConnState) (h : c.destroyed = false) :
    (onClose c).emissions = c.emissions ++ [StreamTag.offline] ∧
    (onClose c).frameTimerOn = false ∧
    (onClose c).probeTimerOn = false ∧
    (onClose c).pendingVisionCapture = false ∧
    (onClose c).pendingTimeout = some (c.nextTimerId, 1500) ∧
    (onClose c).reconnectTimer = some c.nextTimerId ∧
    (onClose c).nextTimerId = c.nextTimerId + 1 ∧
    (onClose c).destroyed = false ∧
    (onClose c).connectAttempts = c.connectAttempts := by
  unfold onClose stopPerceptionStreaming cancelPendingVisionCapture emitStreamState
    clearTimeoutId
  dsimp only
  rw [if_neg (by simp [h])]
  (repeat' split) <;> simp [h]

theorem connStep_preserves_not_destroyed (c : ConnState) (e : ConnEvent)
    (h : c.destroyed = false) (he : e ≠ ConnEvent.destroyEvt) :
    (connStep c e).destroyed = false := by
  cases e with
  | opened => exact h
  | errored => exact h
  | closed =>
    show (onClose c).destroyed = false
    exact (onClose_spec c h).2.2.2.2.2.2.2.1
  | timerFired id =>
    show (fireReconnect c id).destroyed = false
    unfold fireReconnect connectStream stopPerceptionStreaming cancelPendingVisionCapture
      emitStreamState
    (repeat' split) <;> simp_all
  | destroyEvt => exact absurd rfl he

theorem runConn_preserves_not_destroyed (es : List ConnEvent) :
    ∀ c : ConnState, c.destroyed = false → ConnEvent.destroyEvt ∉ es →
      (runConn c es).destroyed = false := by
  induction es with
  | nil => intro c h _; exact h
  | cons e es2 ih =>
    intro c h hmem
    show (runConn (connStep c e) es2).destroyed = false
    exact ih (connStep c e)
      (connStep_preserves_not_destroyed c e h fun he => hmem (he ▸ List.mem_cons_self e es2))
      (fun hin => hmem (List.mem_cons_of_mem e hin))

/-- After teardown: the destroyed flag and the absence of any pending
reconnect timeout, together with a frozen connect-attempt counter, are
preserved by every further event. -/
theorem connStep_after_destroy (c : ConnState) (e : ConnEvent)
    (hd : c.destroyed = true) (hpt : c.pendingTimeout = none) :
    (connStep c e).destroyed = true ∧ (connStep c e).pendingTimeout = none ∧
      (connStep c e).connectAttempts = c.connectAttempts := by
  cases e with
  | opened => exact ⟨hd, hpt, rfl⟩
  | errored => exact ⟨hd, hpt, rfl⟩
  | closed =>
    show (onClose c).destroyed = true ∧ (onClose c).pendingTimeout = none ∧
      (onClose c).connectAttempts = c.connectAttempts
    unfold onClose stopPerceptionStreaming cancelPendingVisionCapture emitStreamState
    dsimp only
    rw [if_pos (by simp [hd])]
    exact ⟨hd, hpt, rfl⟩
  | timerFired id =>
    show (fireReconnect c id).destroyed = true ∧ (fireReconnect c id).pendingTimeout = none ∧
      (fireReconnect c id).connectAttempts = c.connectAttempts
    unfold fireReconnect
    rw [hpt]
    exact ⟨hd, hpt, rfl⟩
  | destroyEvt =>
    show (destroy c).destroyed = true ∧ (destroy c).pendingTimeout = none ∧
      (destroy c).connectAttempts = c.connectAttempts
    unfold destroy stopPerceptionStreaming cancelPendingVisionCapture emitStreamState
      clearTimeoutId
    dsimp only
    (repeat' split) <;> simp_all

theorem runConn_after_destroy (es : List ConnEvent) :
    ∀ c : ConnState, c.destroyed = true → c.pendingTimeout = none →
      (runConn c es).pendingTimeout = none ∧
      (runConn c es).connectAttempts = c.connectAttempts := by
  induction es with
  | nil => intro c _ hpt; exact ⟨hpt, rfl⟩
  | cons e es2 ih =>
    intro c hd hpt
    obtain ⟨hd2, hpt2, hatt⟩ := connStep_after_destroy c e hd hpt
    obtain ⟨hres1, hres2⟩ := ih (connStep c e) hd2 hpt2
    exact ⟨hres1, hres2.trans hatt⟩

/-- When the pending reconnect timeout id matches the stored reconnect
timer id, `destroy` cancels it. -/
theorem destroy_pendingTimeout (c : ConnState)
    (hsync : ∀ pid : ℕ, ∀ d : ℚ, c.pendingTimeout = some (pid, d) →
      c.reconnectTimer = some pid) :
    (destroy c).pendingTimeout = none := by
  unfold destroy stopPerceptionStreaming cancelPendingVisionCapture emitStreamState
    clearTimeoutId
  dsimp only
  cases hpt : c.pendingTimeout with
  | none => (repeat' split) <;> simp_all
  | some pd =>
    obtain ⟨pid, d⟩ := pd
    have hrt : c.reconnectTimer = some pid := hsync pid d hpt
    rw [hrt]
    dsimp only
    rw [if_pos rfl]

theorem destroy_destroyed (c : ConnState) : (destroy c).destroyed = true := by
  unfold destroy stopPerceptionStreaming cancelPendingVisionCapture emitStreamState
    clearTimeoutId
  dsimp only
  (repeat' split) <;> rfl

theorem destroy_connectAttempts (c : ConnState) :
    (destroy c).connectAttempts = c.connectAttempts := by
  unfold destroy stopPerceptionStreaming cancelPendingVisionCapture emitStreamState
    clearTimeoutId
  dsimp only
  (repeat' split) <;> rfl

/-- C8: a channel close while not destroyed emits `offline`, stops the
perception timers, and schedules exactly one reconnect after the fixed
1500 ms delay; firing that timeout consumes it and performs exactly one
connect attempt; while no destroy occurs, every further close keeps
rescheduling the reconnect; and once `destroy` runs, the pending reconnect
timeout is cancelled and no sequence of further events ever changes the
connect-attempt counter or schedules a reconnect again. -/
theorem channel_close_reconnect_lifecycle (c : ConnState) (es : List ConnEvent)
    (hnd : c.destroyed = false) :
    (onClose c).emissions = c.emissions ++ [StreamTag.offline] ∧
    (onClose c).frameTimerOn = false ∧
    (onClose c).probeTimerOn = false ∧
    (onClose c).pendingTimeout = some (c.nextTimerId, 1500) ∧
    (fireReconnect (onClose c) c.nextTimerId).connectAttempts = c.connectAttempts + 1 ∧
    (fireReconnect (onClose c) c.nextTimerId).pendingTimeout = none ∧
    (∀ es2 : List ConnEvent, ConnEvent.destroyEvt ∉ es2 →
      (onClose (runConn (onClose c) es2)).pendingTimeout =
        some ((runConn (onClose c) es2).nextTimerId, 1500)) ∧
    (destroy (onClose c)).pendingTimeout = none ∧
    (runConn (destroy (onClose c)) es).pendingTimeout = none ∧
    (runConn (destroy (onClose c)) es).connectAttempts =
      (destroy (onClose c)).connectAttempts := by
  obtain ⟨hem, hfr, hpr, _, hpt, hrt, _, hd, hatt⟩ := onClose_spec c hnd
  have hfire : (fireReconnect (onClose c) c.nextTimerId).connectAttempts =
      c.connectAttempts + 1 ∧
      (fireReconnect (onClose c) c.nextTimerId).pendingTimeout = none := by
    unfold fireReconnect
    rw [hpt]
    dsimp only
    rw [if_pos rfl]
    unfold connectStream stopPerceptionStreaming cancelPendingVisionCapture emitStreamState
    dsimp only
    rw [if_neg (by simp [hd])]
    exact ⟨by rw [hatt], rfl⟩
  have hdestroyPt : (destroy (onClose c)).pendingTimeout = none := by
    apply destroy_pendingTimeout
    intro pid d hpd
    rw [hpt] at hpd
    injection hpd with hpd2
    simp only [Prod.mk.injEq] at hpd2
    rw [hrt, hpd2.1]
  obtain ⟨hrun1, hrun2⟩ := runConn_after_destroy es (destroy (onClose c))
    (destroy_destroyed (onClose c)) hdestroyPt
  refine ⟨hem, hfr, hpr, hpt, hfire.1, hfire.2, ?_, hdestroyPt, hrun1, hrun2⟩
  intro es2 hmem
  have hnd2 : (runConn (onClose c) es2).destroyed = false :=
    runConn_preserves_not_destroyed es2 (onClose c) hd hmem
  exact (onClose_spec _ hnd2).2.2.2.2.1

/-- Witness for C8 at a concrete live connection state. -/
theorem channel_close_reconnect_lifecycle_witness :
    (⟨false, true, none, none, 0, true, true, false, [], 0⟩ : ConnState).destroyed = false ∧
    ((onClose ⟨false, true, none, none, 0, true, true, false, [], 0⟩).emissions =
      (⟨false, true, none, none, 0, true, true, false, [], 0⟩ : ConnState).emissions ++
        [StreamTag.offline] ∧
    (onClose ⟨false, true, none, none, 0, true, true, false, [], 0⟩).frameTimerOn = false ∧
    (onClose ⟨false, true, none, none, 0, true, true, false, [], 0⟩).probeTimerOn = false ∧
    (onClose ⟨false, true, none, none, 0, true, true, false, [], 0⟩).pendingTimeout =
      some ((⟨false, true, none, none, 0, true, true, false, [], 0⟩ : ConnState).nextTimerId, 1500) ∧
    (fireReconnect (onClose ⟨false, true, none, none, 0, true, true, false, [], 0⟩)
        (⟨false, true, none, none, 0, true, true, false, [], 0⟩ : ConnState).nextTimerId).connectAttempts =
      (⟨false, true, none, none, 0, true, true, false, [], 0⟩ : ConnState).connectAttempts + 1 ∧
    (fireReconnect (onClose ⟨false, true, none, none, 0, true, true, false, [], 0⟩)
        (⟨false, true, none, none, 0, true, true, false, [], 0⟩ : ConnState).nextTimerId).pendingTimeout = none ∧
    (∀ es2 : List ConnEvent, ConnEvent.destroyEvt ∉ es2 →
      (onClose (runConn (onClose ⟨false, true, none, none, 0, true, true, false, [], 0⟩) es2)).pendingTimeout =
        some ((runConn (onClose ⟨false, true, none, none, 0, true, true, false, [], 0⟩) es2).nextTimerId, 1500)) ∧
    (destroy (onClose ⟨false, true, none, none, 0, true, true, false, [], 0⟩)).pendingTimeout = none ∧
    (runConn (destroy (onClose ⟨false, true, none, none, 0, true, true, false, [], 0⟩))
        [ConnEvent.closed, ConnEvent.timerFired 0]).pendingTimeout = none ∧
    (runConn (destroy (onClose ⟨false, true, none, none, 0, true, true, false, [], 0⟩))
        [ConnEvent.closed, ConnEvent.timerFired 0]).connectAttempts =
      (destroy (onClose ⟨false, true, none, none, 0, true, true, false, [], 0⟩)).connectAttempts) :=
  ⟨rfl, channel_close_reconnect_lifecycle ⟨false, true, none, none, 0, true, true, false, [], 0⟩
    [ConnEvent.closed, ConnEvent.timerFired 0] rfl⟩

end G1
